import Mathlib

/-!
Verification of the lumen-photonics circuit simulator against its
natural-language specification.

This file gives a shallow embedding, in Lean 4, of the parts of the code base
that the checked claims are about:

* solver selection (simulation.py, Simulation._select_solver);
* the Python constructor-arity behaviour of the component library
  (circuit/component.py, circuit/components/*.py, models/port.py);
* the circuit builder operations set_circuit_output and connect
  (circuit/photonic_circuit.py);
* the condensation pass and the incoherent scheduling loop
  (simulation.py, Simulation._condense_circuit / Simulation.simulate);
* the Redheffer star operation (simulation.py, Simulation._redheffer_star);
* Jones/Stokes conversions (models/light.py);
* the phase-shifter S-matrix (circuit/components/phase_shifter.py).

Machine floats are embedded as exact rationals (for branch/threshold logic)
or as real numbers (for analytic formulas); Python exceptions are embedded
as Except values; mutation is embedded as explicit state passing.
-/

namespace Lumen

/-! ## Solver selection (simulation.py lines 753-778)

`Simulation._select_solver(A)` reads only `A.shape[0]` (the dimension) and
`A.getnnz()` (the stored-nonzero count), so it is embedded as a function of
the pair `(dim, nnz)`.  The Python constants `_COMPLEX_SIZE_BYTES = 16`,
`_GB_TO_BYTES = 1024 ** 3`, `_DENSE_DOMAIN_SIZE = 1000`,
`_MEMORY_LIMIT_GB = 8`, `_LIMITING_DENSITY = 0.02` are carried over exactly.
The float divisions are embedded as exact rational divisions; all thresholds
involved are exactly representable.  The embedding is used for `dim > 0`
(the call sites always pass the assembled 2P-dimensional system, P ≥ 1). -/

inductive MatrixSolver where
  | DENSE
  | SPARSE
  deriving DecidableEq, Repr

def COMPLEX_SIZE_BYTES : ℕ := 16

def GB_TO_BYTES : ℕ := 1024 ^ 3

def DENSE_DOMAIN_SIZE : ℕ := 1000

def MEMORY_LIMIT_GB : ℕ := 8

def LIMITING_DENSITY : ℚ := 2 / 100

/-- Embedding of `Simulation._select_solver` (simulation.py lines 753-778):
`density = nnz / dim²`, `estimated_dense_size_gb = dim² · 16 / 1024³`;
dense if `dim < 1000`, else sparse if the estimated dense size exceeds 8 GiB,
else sparse if `density < 0.02`, else dense. -/
def selectSolver (dim nnz : ℕ) : MatrixSolver :=
  let density : ℚ := (nnz : ℚ) / ((dim : ℚ) ^ 2)
  let estimatedDenseSizeGb : ℚ := ((dim : ℚ) ^ 2 * (COMPLEX_SIZE_BYTES : ℚ)) / (GB_TO_BYTES : ℚ)
  if dim < DENSE_DOMAIN_SIZE then .DENSE
  else if estimatedDenseSizeGb > (MEMORY_LIMIT_GB : ℚ) then .SPARSE
  else if density < LIMITING_DENSITY then .SPARSE
  else .DENSE

/-- The selection rule exactly as the specification words it (solver section):
dense for `d < 1000`; else sparse when the dense footprint `d² · 16` bytes
exceeds 8 GiB; else sparse when the density `nnz/d²` is below 0.02;
otherwise dense. -/
def selectSolverSpec (dim nnz : ℕ) : MatrixSolver :=
  if dim < 1000 then .DENSE
  else if (8 : ℚ) * 1024 ^ 3 < (dim : ℚ) ^ 2 * 16 then .SPARSE
  else if (nnz : ℚ) / ((dim : ℚ) ^ 2) < 2 / 100 then .SPARSE
  else .DENSE

end Lumen


namespace Lumen

/-! ## Constructor arity of the component library
(circuit/component.py, circuit/components/*.py, models/port.py)

Python raises `TypeError` when a call supplies fewer arguments than a
function's required parameters.  `Component.__init__` (component.py line 59)
has four required parameters after `self`: `name`, `num_inputs`,
`num_outputs`, `s_matrix`.  `Port.__init__` (models/port.py) has two required
positional parameters after `self`: `component` and `port_type`
(`connection` and `alias` are keyword parameters with defaults); the body of
`Component.__init__` creates every port as `Port(self)`, supplying one
positional argument.  Each concrete component class's `__init__` calls
`super().__init__(...)` with a class-specific number of arguments, read off
from circuit/components/*.py. -/

inductive PyOutcome where
  | ok
  | typeError
  deriving DecidableEq, Repr

/-- Required parameters of `Component.__init__` after `self`
(component.py line 59: `name, num_inputs, num_outputs, s_matrix`). -/
def componentInitRequiredParams : ℕ := 4

/-- Required positional parameters of `Port.__init__` after `self`
(models/port.py: `component, port_type` before the `/` marker). -/
def portInitRequiredPositional : ℕ := 2

/-- A Python call of `Port` with `n` positional arguments: `TypeError` when
fewer than the required positional parameters are supplied. -/
def pyCallPort (n : ℕ) : PyOutcome :=
  if n < portInitRequiredPositional then .typeError else .ok

/-- A Python call of `Component.__init__` with `args` supplied arguments for
a component with `numInputs`/`numOutputs` ports.  Binding fails with
`TypeError` when fewer than the four required arguments are supplied;
otherwise the body runs and builds the port lists via `Port(self)` — a call
with a single positional argument — once per input port and once per output
port (component.py lines 68 and 77), so the first port creation already
determines the outcome whenever the component has at least one port. -/
def pyCallComponentInit (args numInputs numOutputs : ℕ) : PyOutcome :=
  if args < componentInitRequiredParams then .typeError
  else if numInputs = 0 ∧ numOutputs = 0 then .ok
  else pyCallPort 1

/-- The concrete component classes living in src/src/lumen/circuit/components/. -/
inductive LibraryComponent where
  | beamSplitter
  | condensedComponent
  | coupler
  | faradayRotator
  | halfWavePlate
  | machZehnderInterferometer
  | phaseShifter
  | polarizationBeamSplitter
  | polarizationRotator
  | polarizer
  | qwp
  deriving DecidableEq, Repr

/-- Number of arguments each class's `__init__` passes to
`super().__init__(...)`, read off from the `super().__init__` call in each
file of circuit/components/ (e.g. beam_splitter.py line 37 passes
`(name, 2, 2)`; qwp.py line 31 passes `(name, 1, 1, s_matrix)`). -/
def superInitArgCount : LibraryComponent → ℕ
  | .beamSplitter => 3
  | .condensedComponent => 3
  | .coupler => 3
  | .faradayRotator => 3
  | .halfWavePlate => 3
  | .machZehnderInterferometer => 3
  | .phaseShifter => 3
  | .polarizationBeamSplitter => 3
  | .polarizationRotator => 3
  | .polarizer => 3
  | .qwp => 4

/-- The `(num_inputs, num_outputs)` each class passes to `super().__init__`. -/
def libraryPortCounts : LibraryComponent → ℕ × ℕ
  | .beamSplitter => (2, 2)
  | .condensedComponent => (1, 1)
  | .coupler => (2, 2)
  | .faradayRotator => (1, 1)
  | .halfWavePlate => (1, 1)
  | .machZehnderInterferometer => (2, 2)
  | .phaseShifter => (1, 1)
  | .polarizationBeamSplitter => (2, 2)
  | .polarizationRotator => (1, 1)
  | .polarizer => (1, 1)
  | .qwp => (1, 1)

/-- Outcome of constructing a library component: its `__init__` immediately
calls `Component.__init__` through `super()`. -/
def constructLibraryComponent (c : LibraryComponent) : PyOutcome :=
  pyCallComponentInit (superInitArgCount c) (libraryPortCounts c).1 (libraryPortCounts c).2

end Lumen


namespace Lumen

/-! ## Constant-wavelength detection in the coherent path
(simulation.py lines 126-148)

With exactly one circuit input, `simulate` samples the laser's wavelength at
`times[0]` to initialise both `max_wavelength` and `min_wavelength`, then
walks the whole `times` array updating `max` (or, failing that, `min`), and
finally takes the constant-λ path iff `max - min < 1e-9`
(`_WAVELENGTH_TOLERANCE`).  Wavelength floats are embedded as exact
rationals; a laser is embedded as its wavelength-sampling function
`time → wavelength`.  An empty `times` array would raise `IndexError` at
`times[0]`, embedded as `none`. -/

def WAVELENGTH_TOLERANCE : ℚ := 1 / 1000000000

/-- One iteration of the scan loop (simulation.py lines 133-138):
`if new > max: max = new  elif new < min: min = new`. -/
def wavelengthScanStep (mm : ℚ × ℚ) (nw : ℚ) : ℚ × ℚ :=
  if nw > mm.1 then (nw, mm.2)
  else if nw < mm.2 then (mm.1, nw)
  else mm

/-- Embedding of the constant-λ decision of the coherent branch
(simulation.py lines 128-144): `some b` with `b` true iff
`max - min < 1e-9` over the sampled wavelengths; `none` for empty `times`. -/
def coherentConstantWavelength (laser : ℚ → ℚ) (times : List ℚ) : Option Bool :=
  match times with
  | [] => none
  | t0 :: _ =>
    let mm := times.foldl (fun mm t => wavelengthScanStep mm (laser t)) (laser t0, laser t0)
    some (decide (mm.1 - mm.2 < WAVELENGTH_TOLERANCE))

end Lumen

namespace Lumen

/-! ## The Redheffer star operation (simulation.py lines 604-644)

`_redheffer_star(A, B)` slices its two 4×4 complex arguments into 2×2 blocks
(`_get_blocks`), inverts the two interior matrices
`D1 = (I - A22·B11)⁻¹`, `D2 = (I - B11·A22)⁻¹` with `np.linalg.inv`, and
reassembles `np.block([[star11, star12], [star21, star22]])` with
`star11 = A11 + A12·B11·D1·A21`, `star12 = A12·D1·B12`,
`star21 = B21·D2·A21`, `star22 = B22 + B21·A22·D2·B12`.

The embedding is generic over a field, so the same definitions serve both
the complex instance (the code) and exact rational evaluation.
`np.linalg.inv` on a 2×2 matrix is embedded by the adjugate formula `inv2`;
`inv2_mul_self` below checks that it is the true inverse whenever the
determinant is nonzero (the only case the claim concerns). -/

section Redheffer

variable {F : Type} [Field F]

/-- Upper-left 2×2 block `M[0:2, 0:2]` of `_get_blocks`. -/
def blk11 (M : Matrix (Fin 4) (Fin 4) F) : Matrix (Fin 2) (Fin 2) F :=
  !![M 0 0, M 0 1; M 1 0, M 1 1]

/-- Upper-right 2×2 block `M[0:2, 2:4]` of `_get_blocks`. -/
def blk12 (M : Matrix (Fin 4) (Fin 4) F) : Matrix (Fin 2) (Fin 2) F :=
  !![M 0 2, M 0 3; M 1 2, M 1 3]

/-- Lower-left 2×2 block `M[2:4, 0:2]` of `_get_blocks`. -/
def blk21 (M : Matrix (Fin 4) (Fin 4) F) : Matrix (Fin 2) (Fin 2) F :=
  !![M 2 0, M 2 1; M 3 0, M 3 1]

/-- Lower-right 2×2 block `M[2:4, 2:4]` of `_get_blocks`. -/
def blk22 (M : Matrix (Fin 4) (Fin 4) F) : Matrix (Fin 2) (Fin 2) F :=
  !![M 2 2, M 2 3; M 3 2, M 3 3]

/-- The 2×2 determinant. -/
def det2 (M : Matrix (Fin 2) (Fin 2) F) : F :=
  M 0 0 * M 1 1 - M 0 1 * M 1 0

/-- `np.linalg.inv` restricted to 2×2 arguments (the only shape
`_redheffer_star` inverts), in adjugate form. -/
def inv2 (M : Matrix (Fin 2) (Fin 2) F) : Matrix (Fin 2) (Fin 2) F :=
  (det2 M)⁻¹ • !![M 1 1, -(M 0 1); -(M 1 0), M 0 0]

/-- `np.block([[B11, B12], [B21, B22]])` for 2×2 blocks. -/
def block4 (P Q R S : Matrix (Fin 2) (Fin 2) F) : Matrix (Fin 4) (Fin 4) F :=
  !![P 0 0, P 0 1, Q 0 0, Q 0 1;
     P 1 0, P 1 1, Q 1 0, Q 1 1;
     R 0 0, R 0 1, S 0 0, S 0 1;
     R 1 0, R 1 1, S 1 0, S 1 1]

/-- Embedding of `Simulation._redheffer_star` (simulation.py lines 604-635). -/
def redhefferStar (A B : Matrix (Fin 4) (Fin 4) F) : Matrix (Fin 4) (Fin 4) F :=
  let A11 := blk11 A
  let A12 := blk12 A
  let A21 := blk21 A
  let A22 := blk22 A
  let B11 := blk11 B
  let B12 := blk12 B
  let B21 := blk21 B
  let B22 := blk22 B
  let D1 := inv2 (1 - A22 * B11)
  let D2 := inv2 (1 - B11 * A22)
  block4 (A11 + A12 * B11 * D1 * A21) (A12 * D1 * B12) (B21 * D2 * A21)
    (B22 + B21 * A22 * D2 * B12)

end Redheffer

/-- First matrix of the concrete non-associativity witness. -/
def cexA : Matrix (Fin 4) (Fin 4) ℚ :=
  !![0, 0, 0, 0;
     0, 0, 0, 0;
     0, 0, 0, 0;
     0, 0, 1, 0]

/-- Second matrix of the concrete non-associativity witness. -/
def cexB : Matrix (Fin 4) (Fin 4) ℚ :=
  !![0, 0, 0, 1;
     0, 0, 0, 0;
     0, 1, 1, 0;
     0, 0, 0, 0]

/-- Third matrix of the concrete non-associativity witness. -/
def cexC : Matrix (Fin 4) (Fin 4) ℚ :=
  !![-1, 0, 0, 0;
     1, 0, 0, 1;
     0, 1, 0, 0;
     0, 0, 0, 0]

end Lumen

namespace Lumen

/-! ## Phase shifter S-matrix (circuit/components/phase_shifter.py lines 127-149)

`PhaseShifter.get_s_matrix(wavelength)` computes per-polarization dispersed
indices `n_P_group = n_P - (wavelength - central_wavelength_P) * n_P_gradient`,
phases `phase_P = (2 pi n_P_group length) / wavelength`, field amplitudes
`a_P = 10 ** ((-power_ratio_P * length) / 20)` (`power_ratio_P` in dB/m), and
returns the 4×4 matrix whose only nonzero entries are the four transmission
entries `(0,2), (1,3), (2,0), (3,1)`, each `a_P * exp(-1j * phase_P)`.
Floats are embedded as real numbers, `np.exp` as `Complex.exp`,
`10 ** x` as real rpow. -/

structure PhaseShifterParams where
  nH : ℝ
  nHGradient : ℝ
  centralWavelengthH : ℝ
  nV : ℝ
  nVGradient : ℝ
  centralWavelengthV : ℝ
  length : ℝ
  powerRatioH : ℝ
  powerRatioV : ℝ

/-- The dispersed H-mode effective index `nH_group` (phase_shifter.py line 137). -/
noncomputable def dispersedIndexH (p : PhaseShifterParams) (wl : ℝ) : ℝ :=
  p.nH - (wl - p.centralWavelengthH) * p.nHGradient

/-- The dispersed V-mode effective index `nV_group` (phase_shifter.py line 138). -/
noncomputable def dispersedIndexV (p : PhaseShifterParams) (wl : ℝ) : ℝ :=
  p.nV - (wl - p.centralWavelengthV) * p.nVGradient

/-- Embedding of `PhaseShifter.get_s_matrix` (phase_shifter.py lines 127-149). -/
noncomputable def phaseShifterSMatrix (p : PhaseShifterParams) (wl : ℝ) : Matrix (Fin 4) (Fin 4) ℂ :=
  let phaseH : ℝ := (2 * Real.pi * dispersedIndexH p wl * p.length) / wl
  let phaseV : ℝ := (2 * Real.pi * dispersedIndexV p wl * p.length) / wl
  let aH : ℝ := (10 : ℝ) ^ ((-p.powerRatioH * p.length) / 20)
  let aV : ℝ := (10 : ℝ) ^ ((-p.powerRatioV * p.length) / 20)
  !![0, 0, (aH : ℂ) * Complex.exp (-Complex.I * (phaseH : ℂ)), 0;
     0, 0, 0, (aV : ℂ) * Complex.exp (-Complex.I * (phaseV : ℂ));
     (aH : ℂ) * Complex.exp (-Complex.I * (phaseH : ℂ)), 0, 0, 0;
     0, (aV : ℂ) * Complex.exp (-Complex.I * (phaseV : ℂ)), 0, 0]

/-- Concrete parameters used to witness the phase-shifter claim. -/
noncomputable def psWitnessParams : PhaseShifterParams :=
  { nH := 2, nHGradient := 3, centralWavelengthH := 5,
    nV := 7, nVGradient := 11, centralWavelengthV := 13,
    length := 17, powerRatioH := 19, powerRatioV := 23 }

end Lumen

namespace Lumen

/-! ## Jones/Stokes conversions (models/light.py)

`CoherentLight` stores a Jones pair `(E_H, E_V)` of complex phasors and a
wavelength.  `from_stokes` (light.py lines 83-106) builds the pair from a
Stokes 4-tuple using `A_x = sqrt(0.5 (S0+S1))`, `A_y = sqrt(0.5 (S0-S1))`,
relative phase `arctan2(S3, S2)`, `E_H = A_x e^{i phi0}`,
`E_V = A_y e^{i (phi0 + phi)}`.  `np.arctan2(y, x)` is embedded as
`Complex.arg (x + y i)` — both have range `(-π, π]`, value `0` at the
origin and `π` on the negative real axis.  `stokes_parameter`
(light.py lines 116-134) recovers `S0 = |E_H|² + |E_V|²`,
`S1 = |E_H|² - |E_V|²`, `S2 = 2 Re(conj(E_H) E_V)`,
`S3 = 2 Im(conj(E_H) E_V)`; `stokes_vector` (lines 136-149) packages the
four parameters. -/

inductive StokesParameters where
  | S0
  | S1
  | S2
  | S3
  deriving DecidableEq, Repr

structure Stokes where
  S0 : ℝ
  S1 : ℝ
  S2 : ℝ
  S3 : ℝ

structure CoherentLight where
  eH : ℂ
  eV : ℂ
  wavelength : ℝ

/-- Embedding of `CoherentLight.from_stokes` (light.py lines 83-106). -/
noncomputable def CoherentLight.fromStokes (stokes : Stokes) (wl : ℝ)
    (globalPhase : ℝ) : CoherentLight :=
  let Ax := Real.sqrt (0.5 * (stokes.S0 + stokes.S1))
  let Ay := Real.sqrt (0.5 * (stokes.S0 - stokes.S1))
  let relativePhase := Complex.arg ((stokes.S2 : ℂ) + (stokes.S3 : ℂ) * Complex.I)
  { eH := (Ax : ℂ) * Complex.exp (Complex.I * (globalPhase : ℂ))
    eV := (Ay : ℂ) * Complex.exp (Complex.I * ((globalPhase + relativePhase : ℝ) : ℂ))
    wavelength := wl }

/-- Embedding of `CoherentLight.stokes_parameter` (light.py lines 116-134). -/
noncomputable def CoherentLight.stokesParameter (l : CoherentLight) :
    StokesParameters → ℝ
  | .S0 => (l.eH * (starRingEnd ℂ) l.eH + l.eV * (starRingEnd ℂ) l.eV).re
  | .S1 => (l.eH * (starRingEnd ℂ) l.eH - l.eV * (starRingEnd ℂ) l.eV).re
  | .S2 => 2 * ((starRingEnd ℂ) l.eH * l.eV).re
  | .S3 => 2 * ((starRingEnd ℂ) l.eH * l.eV).im

/-- Embedding of `CoherentLight.stokes_vector` (light.py lines 136-149). -/
noncomputable def CoherentLight.stokesVector (l : CoherentLight) : Stokes :=
  { S0 := l.stokesParameter .S0
    S1 := l.stokesParameter .S1
    S2 := l.stokesParameter .S2
    S3 := l.stokesParameter .S3 }

end Lumen

namespace Lumen

/-! ## Circuit state model
(circuit/photonic_circuit.py, models/port.py, simulation.py)

Python object graphs are embedded as explicit state: ports and components
live in heaps keyed by numeric ids (object identity), and every mutating
method becomes a function from state to state.  A method that can raise
returns an `Except` paired with the state at the moment of the raise, so
mutations that happened before the raise are visible — exactly as in
Python, where a raised exception does not roll anything back.

`photonic_circuit.py` and `simulation.py` address components through
`_ports` (one ordered list, inputs first), `_port_aliases`, `_in_degree`,
`_out_degree` and the method `connect_port`.  The `Component` committed
under src (component.py) predates this interface (it has split
input/output port lists and no `connect_port`; see the claim about
constructor arity), so this part of the component is
Modelled from the spec: §3 (ordered port list, inputs first; alias map;
degree counters counting non-None connections) and §4.2 (`connect_port`
updates the local side only and bumps the degree counter only when the
prior connection was `None`).  Everything else below is read directly off
photonic_circuit.py / simulation.py. -/

inductive PortKind where
  | input
  | output
  deriving DecidableEq, Repr

/-- The `Connection` variants of models/port.py; a port's `_connection`
field is `Option Conn`, with Python `None` as `none`. -/
inductive Conn where
  | toPort (pid : ℕ)
  | inputTag
  | outputTag
  deriving DecidableEq, Repr

structure PortState where
  owner : ℕ
  kind : PortKind
  conn : Option Conn
  deriving DecidableEq, Repr

structure ComponentState where
  name : String
  ports : List ℕ
  portAliases : List (String × ℕ)
  inDegree : ℤ
  outDegree : ℤ
  deriving DecidableEq, Repr

structure CircuitState where
  components : List ℕ
  namesToComponents : List (String × ℕ)
  circuitInputs : List ℕ
  circuitOutputs : List ℕ
  portHeap : List (ℕ × PortState)
  compHeap : List (ℕ × ComponentState)
  nextId : ℕ
  deriving DecidableEq, Repr

inductive CircuitExc where
  | missingComponent
  | missingAlias
  | indexError
  | selfConnection
  | conflictingConnection
  | duplicateComponent
  | duplicateComponentName
  | emptyInterface
  | typeErrorUnhashable
  | typeErrorListPop
  | valueErrorIndex
  | fuelExhausted
  | invalidState
  deriving DecidableEq, Repr

def getPort (c : CircuitState) (pid : ℕ) : Option PortState :=
  c.portHeap.lookup pid

def getComp (c : CircuitState) (cid : ℕ) : Option ComponentState :=
  c.compHeap.lookup cid

/-- In-place update of a port object (all references see the change). -/
def setPort (c : CircuitState) (pid : ℕ) (p : PortState) : CircuitState :=
  { c with portHeap := c.portHeap.map (fun kv => if kv.1 = pid then (pid, p) else kv) }

/-- Assignment to `port._connection`. -/
def setConn (c : CircuitState) (pid : ℕ) (conn : Option Conn) : CircuitState :=
  match getPort c pid with
  | some p => setPort c pid { p with conn := conn }
  | none => c

def updateComp (c : CircuitState) (cid : ℕ) (f : ComponentState → ComponentState) :
    CircuitState :=
  { c with compHeap := c.compHeap.map (fun kv => if kv.1 = cid then (cid, f kv.2) else kv) }

/-- `component._in_degree += d` / `component._out_degree += d`. -/
def bumpDegree (c : CircuitState) (cid : ℕ) (kind : PortKind) (d : ℤ) : CircuitState :=
  updateComp c cid (fun comp =>
    match kind with
    | .input => { comp with inDegree := comp.inDegree + d }
    | .output => { comp with outDegree := comp.outDegree + d })

/-- A `port_name` is an int or a string in the external API. -/
inductive PortName where
  | idx (i : ℤ)
  | byAlias (a : String)
  deriving DecidableEq, Repr

structure CircuitPortRef where
  componentName : String
  portName : PortName
  deriving DecidableEq, Repr

/-- Python list subscription with an arbitrary integer index (negative
indices wrap once; out of range raises `IndexError`, i.e. `none`). -/
def pyListGet {α : Type} (l : List α) (i : ℤ) : Option α :=
  if 0 ≤ i then l.get? i.toNat
  else if i.natAbs ≤ l.length then l.get? (l.length - i.natAbs)
  else none

/-- Embedding of `PhotonicCircuit._get_port_from_ref`
(photonic_circuit.py lines 200-224): resolve the component by name in
`_names_to_components` (`MissingComponent` if absent), then the port either
by 1-based integer index into `component._ports` or by alias in
`component._port_aliases` (`MissingAlias` if absent). -/
def getPortFromRef (c : CircuitState) (ref : CircuitPortRef) : Except CircuitExc ℕ :=
  match c.namesToComponents.lookup ref.componentName with
  | none => .error .missingComponent
  | some cid =>
    match getComp c cid with
    | none => .error .invalidState
    | some comp =>
      match ref.portName with
      | .idx i =>
        match pyListGet comp.ports (i - 1) with
        | some pid => .ok pid
        | none => .error .indexError
      | .byAlias a =>
        match comp.portAliases.lookup a with
        | some pid => .ok pid
        | none => .error .missingAlias

/-- Embedding of `PhotonicCircuit.set_circuit_output`
(photonic_circuit.py lines 91-107), statement for statement: resolve the
port, **append it to `_circuit_outputs`**, only then check membership in
`_circuit_inputs` and raise `ConflictingConnection`; on the success path
bump the owner's out-degree when the prior connection was `None` and tag
the port with `OutputConnection`. -/
def setCircuitOutput (c : CircuitState) (ref : CircuitPortRef) :
    Except CircuitExc Unit × CircuitState :=
  match getPortFromRef c ref with
  | .error e => (.error e, c)
  | .ok pid =>
    let c1 := { c with circuitOutputs := c.circuitOutputs ++ [pid] }
    if pid ∈ c1.circuitInputs then (.error .conflictingConnection, c1)
    else
      match getPort c1 pid with
      | none => (.error .invalidState, c1)
      | some p =>
        let c2 := if p.conn = none then bumpDegree c1 p.owner .output 1 else c1
        (.ok (), setConn c2 pid (some .outputTag))

/-- Modelled from the spec: `component.connect_port(local_port_name, to)`
(§4.2) — the method photonic_circuit.py calls but the committed Component
lacks.  Resolves the local port by the same index/alias rule, resolves the
remote end through the circuit name map, updates the *local* side only and
bumps that port kind's degree counter only when the prior connection was
`None`. -/
def connectPort (c : CircuitState) (cid : ℕ) (localName : PortName)
    (toRef : CircuitPortRef) : Except CircuitExc CircuitState :=
  match getComp c cid with
  | none => .error .invalidState
  | some comp =>
    let localPid : Except CircuitExc ℕ :=
      match localName with
      | .idx i =>
        match pyListGet comp.ports (i - 1) with
        | some pid => .ok pid
        | none => .error .indexError
      | .byAlias a =>
        match comp.portAliases.lookup a with
        | some pid => .ok pid
        | none => .error .missingAlias
    match localPid with
    | .error e => .error e
    | .ok pid =>
      match getPortFromRef c toRef with
      | .error e => .error e
      | .ok remotePid =>
        match getPort c pid with
        | none => .error .invalidState
        | some p =>
          let c1 := if p.conn = none then bumpDegree c cid p.kind 1 else c
          .ok (setConn c1 pid (some (.toPort remotePid)))

/-- Embedding of `PhotonicCircuit.connect`
(photonic_circuit.py lines 136-167): resolve both refs; raise
`SelfConnection` only when the two refs are *textually* equal
(`component_1_name == component_2_name and port_1_name == port_2_name`);
demote a destination that is a circuit output (`list.remove`) and a source
that is a circuit input (`dict.pop`); then install the two half-connections
through `connect_port`. -/
def connect (c : CircuitState) (source destination : CircuitPortRef) :
    Except CircuitExc Unit × CircuitState :=
  match getPortFromRef c source with
  | .error e => (.error e, c)
  | .ok p1 =>
    match getPortFromRef c destination with
    | .error e => (.error e, c)
    | .ok p2 =>
      match c.namesToComponents.lookup source.componentName,
          c.namesToComponents.lookup destination.componentName with
      | some cid1, some cid2 =>
        if source.componentName = destination.componentName ∧
            source.portName = destination.portName then
          (.error .selfConnection, c)
        else
          let c1 := if p2 ∈ c.circuitOutputs then
              { c with circuitOutputs := c.circuitOutputs.erase p2 } else c
          let c2 := if p1 ∈ c1.circuitInputs then
              { c1 with circuitInputs := c1.circuitInputs.erase p1 } else c1
          match connectPort c2 cid1 source.portName destination with
          | .error e => (.error e, c2)
          | .ok c3 =>
            match connectPort c3 cid2 destination.portName source with
            | .error e => (.error e, c3)
            | .ok c4 => (.ok (), c4)
      | _, _ => (.error .invalidState, c)

/-- Failing input for the output-registration claim: one two-port component
`"c"` whose input port (id 0) is registered as a circuit input. -/
def outputConflictExample : CircuitState :=
  { components := [0]
    namesToComponents := [("c", 0)]
    circuitInputs := [0]
    circuitOutputs := []
    portHeap := [(0, ⟨0, .input, some .inputTag⟩), (1, ⟨0, .output, none⟩)]
    compHeap := [(0, ⟨"c", [0, 1], [], 1, 0⟩)]
    nextId := 2 }

/-- Failing input for the self-connection claim: one two-port component
`"c"` whose input port (id 0) also carries the alias `"a"`. -/
def selfConnectExample : CircuitState :=
  { components := [0]
    namesToComponents := [("c", 0)]
    circuitInputs := []
    circuitOutputs := []
    portHeap := [(0, ⟨0, .input, none⟩), (1, ⟨0, .output, none⟩)]
    compHeap := [(0, ⟨"c", [0, 1], [("a", 0)], 0, 0⟩)]
    nextId := 2 }

end Lumen

-- Equality of `Except` results is decidable when both components are.
deriving instance DecidableEq for Except

namespace Lumen

/-! ## Condensation pass (simulation.py lines 780-854, 444-601)

`_condense_circuit` first prunes fully disconnected components by removing
them from `photonic_circuit.components` *while iterating over that same
list* — Python's list iterator keeps a cursor, so removing the current
element shifts the next one under the cursor and it is skipped.
`pruneLoop` reproduces the iterator semantics exactly: `k` is the cursor
(the next index the iterator will read), a removed element is erased at its
position (its first occurrence, component ids being unique), and the cursor
still advances.

Then anchors (`in_degree ≠ 1 or out_degree ≠ 1`) are collected, maximal
sequential chains are discovered by forward walks
(`_find_sequential_chain`, embedded with explicit fuel since the Python
`while` loop has no termination guard), and each chain of length ≥ 2 is
replaced by a synthetic condensed component
(`_condense_sequential_chain_coherent` / `_replace_components` /
`PhotonicCircuit.add`).  The numeric 4×4 payload of the condensed component
(`_get_condensed_s_matrix`, a left fold of `_redheffer_star` over the
chain) does not influence which components and connections exist, so the
structural model carries no matrix; the star operation itself is embedded
separately as `redhefferStar`. -/

/-- Embedding of `Simulation._is_disconnected` (simulation.py lines
780-792): every port's connection is `None`.  (A dangling heap reference
cannot arise on states built by the model; it is treated as connected.) -/
def isDisconnected (c : CircuitState) (cid : ℕ) : Bool :=
  match getComp c cid with
  | none => false
  | some comp =>
    comp.ports.all (fun pid =>
      match getPort c pid with
      | some p => p.conn = none
      | none => false)

/-- One-per-step unfolding of the prune loop of `_condense_circuit`
(simulation.py lines 826-829) with Python's iterate-while-removing
semantics: `k` is the list iterator's cursor (the next index it reads); a
removed element is erased at its position (its first occurrence, component
ids being unique) while the cursor still advances, so the element that
slid into the removed slot is skipped. -/
def pruneLoopAux (c : CircuitState) : ℕ → List ℕ → ℕ → List ℕ
  | 0, comps, _ => comps
  | fuel + 1, comps, k =>
    if h : k < comps.length then
      if isDisconnected c (comps.get ⟨k, h⟩) then
        pruneLoopAux c fuel (comps.eraseIdx k) (k + 1)
      else
        pruneLoopAux c fuel comps (k + 1)
    else comps

/-- The prune loop runs to completion within `comps.length` iterations:
the cursor strictly increases and the list never grows, so that much
structural fuel makes `pruneLoopAux` equal to the unbounded Python loop. -/
def pruneLoop (c : CircuitState) (comps : List ℕ) : List ℕ :=
  pruneLoopAux c comps.length comps 0

/-- Embedding of `Simulation._find_sequential_chain` (simulation.py lines
449-470): walk forward from `cur`, collecting non-anchor components,
following `component._ports[1]._connection`; stop (inclusive) at a
non-`PortConnection` connection, stop (exclusive) at an anchor.  The
Python `while` has no termination guard, so the walk carries fuel. -/
def findSequentialChain (c : CircuitState) (anchors : List ℕ) :
    ℕ → ℕ → Except CircuitExc (List ℕ)
  | 0, _ => .error .fuelExhausted
  | fuel + 1, cur =>
    if cur ∈ anchors then .ok []
    else
      match getComp c cur with
      | none => .error .invalidState
      | some comp =>
        match comp.ports.get? 1 with
        | none => .error .indexError
        | some outPid =>
          match getPort c outPid with
          | none => .error .invalidState
          | some p =>
            match p.conn with
            | some (.toPort q) =>
              match getPort c q with
              | none => .error .invalidState
              | some qp =>
                (findSequentialChain c anchors fuel qp.owner).map
                  (fun rest => cur :: rest)
            | _ => .ok [cur]

/-- `PhotonicCircuit._connect_by_port` (photonic_circuit.py lines 169-180):
install the two `PortConnection` halves directly, no degree updates. -/
def connectByPort (c : CircuitState) (p1 p2 : ℕ) : CircuitState :=
  setConn (setConn c p1 (some (.toPort p2))) p2 (some (.toPort p1))

/-- Embedding of `Simulation._replace_components` (simulation.py lines
542-601), splicing `newCid` (with fresh ports `newIn`/`newOut`) in place of
`chain`: rewire the upstream connection of the chain's first input port and
the downstream connection of the chain's last output port, transferring
`CircuitInput`/`CircuitOutput` tags and the laser/output bookkeeping; then
clear the two boundary ports and remove the chain's components from the
component list.  Two latent Python faults are kept: a `CircuitOutput` tag
on the chain's *first input* port reaches `self._circuit_outputs.pop(port)`
— `list.pop` wants an integer index, `TypeError`; and
`self._circuit_outputs.index(...)` raises `ValueError` when the port is
missing. -/
def replaceComponents (c : CircuitState) (chain : List ℕ)
    (_newCid newIn newOut : ℕ) : Except CircuitExc CircuitState :=
  match chain.head?, chain.getLast? with
  | some first, some last =>
    match getComp c first, getComp c last with
    | some fc, some lc =>
      match fc.ports.get? 0, lc.ports.get? 1 with
      | some rin, some rout =>
        match getPort c rin, getPort c rout with
        | some rinP, some routP =>
          let prev := rinP.conn
          let next := routP.conn
          let step1 : Except CircuitExc CircuitState :=
            match prev with
            | some (.toPort q) => .ok (connectByPort c q newIn)
            | some .inputTag =>
              let c1 := setConn c newIn prev
              .ok { c1 with circuitInputs := c1.circuitInputs.erase rin ++ [newIn] }
            | some .outputTag => .error .typeErrorListPop
            | none => .ok (setConn c newIn prev)
          match step1 with
          | .error e => .error e
          | .ok cA =>
            let step2 : Except CircuitExc CircuitState :=
              match next with
              | some (.toPort q) => .ok (connectByPort cA q newOut)
              | some .outputTag =>
                let cB := setConn cA newOut next
                match cB.circuitOutputs.indexOf? rout with
                | some i => .ok { cB with circuitOutputs := cB.circuitOutputs.set i newOut }
                | none => .error .valueErrorIndex
              | some .inputTag =>
                let cB := setConn cA newOut next
                .ok { cB with circuitInputs := cB.circuitInputs.erase rout ++ [newOut] }
              | none => .ok (setConn cA newOut next)
            match step2 with
            | .error e => .error e
            | .ok cC =>
              let cD := setConn (setConn cC rin none) rout none
              .ok { cD with components := chain.foldl (fun l cid => l.erase cid) cD.components }
        | _, _ => .error .invalidState
      | _, _ => .error .invalidState
    | _, _ => .error .invalidState
  | _, _ => .error .invalidState

/-- Embedding of `Simulation._condense_sequential_chain_coherent`
(simulation.py lines 500-523): create the synthetic `_CondensedComponent`
(named `"CONDENSED_COMPONENT"`, one input and one output port), add it via
`PhotonicCircuit.add` — whose duplicate-name check fires when a condensed
component already exists, every instance sharing that name — and splice it
in with `_replace_components`. -/
def condenseChain (c : CircuitState) (chain : List ℕ) :
    Except CircuitExc CircuitState :=
  let newCid := c.nextId
  let newIn := c.nextId + 1
  let newOut := c.nextId + 2
  if newCid ∈ c.components then .error .duplicateComponent
  else if (c.namesToComponents.lookup "CONDENSED_COMPONENT").isSome then
    .error .duplicateComponentName
  else
    let c1 : CircuitState :=
      { c with
        components := c.components ++ [newCid]
        namesToComponents := c.namesToComponents ++ [("CONDENSED_COMPONENT", newCid)]
        compHeap := c.compHeap ++ [(newCid, ⟨"CONDENSED_COMPONENT", [newIn, newOut], [], 0, 0⟩)]
        portHeap := c.portHeap ++
          [(newIn, ⟨newCid, .input, none⟩), (newOut, ⟨newCid, .output, none⟩)]
        nextId := c.nextId + 3 }
    replaceComponents c1 chain newCid newIn newOut

/-- Chains discovered from the anchors' connected output ports
(simulation.py lines 836-846). -/
def chainsFromAnchors (c : CircuitState) (anchors : List ℕ) (fuel : ℕ) :
    Except CircuitExc (List (List ℕ)) :=
  anchors.foldlM (fun acc cid =>
    match getComp c cid with
    | none => .error .invalidState
    | some comp =>
      comp.ports.foldlM (fun acc2 pid =>
        match getPort c pid with
        | none => .error .invalidState
        | some p =>
          if p.kind = .output then
            match p.conn with
            | some (.toPort q) =>
              match getPort c q with
              | none => .error .invalidState
              | some qp =>
                (findSequentialChain c anchors fuel qp.owner).map
                  (fun chain => if 2 ≤ chain.length then acc2 ++ [chain] else acc2)
            | _ => .ok acc2
          else .ok acc2) acc) []

/-- Chains discovered from the circuit-input ports
(simulation.py lines 847-851). -/
def chainsFromInputs (c : CircuitState) (anchors : List ℕ) (fuel : ℕ) :
    Except CircuitExc (List (List ℕ)) :=
  c.circuitInputs.foldlM (fun acc pid =>
    match getPort c pid with
    | none => .error .invalidState
    | some p =>
      (findSequentialChain c anchors fuel p.owner).map
        (fun chain => if 2 ≤ chain.length then acc ++ [chain] else acc)) []

/-- Embedding of `Simulation._condense_circuit` (simulation.py lines
811-854): prune disconnected components (with the iterator semantics of
`pruneLoop`), collect anchors, discover sequential chains from anchor
outputs and from circuit inputs, condense each chain at the dummy
wavelength, and return the chain list. -/
def condenseCircuit (c : CircuitState) (fuel : ℕ) :
    Except CircuitExc (CircuitState × List (List ℕ)) :=
  let c0 := { c with components := pruneLoop c c.components }
  let anchors := c0.components.filter (fun cid =>
    match getComp c0 cid with
    | some comp => decide (comp.inDegree ≠ 1 ∨ comp.outDegree ≠ 1)
    | none => false)
  match chainsFromAnchors c0 anchors fuel with
  | .error e => .error e
  | .ok paths1 =>
    match chainsFromInputs c0 anchors fuel with
    | .error e => .error e
    | .ok paths2 =>
      let sequentialPaths := paths1 ++ paths2
      match sequentialPaths.foldlM (fun st chain => condenseChain st chain) c0 with
      | .error e => .error e
      | .ok cFinal => .ok (cFinal, sequentialPaths)

/-- Failing input for the pruning claim: two fully disconnected two-port
components, adjacent in insertion order. -/
def twoDisconnectedExample : CircuitState :=
  { components := [0, 1]
    namesToComponents := [("d1", 0), ("d2", 1)]
    circuitInputs := []
    circuitOutputs := []
    portHeap := [(10, ⟨0, .input, none⟩), (11, ⟨0, .output, none⟩),
                 (12, ⟨1, .input, none⟩), (13, ⟨1, .output, none⟩)]
    compHeap := [(0, ⟨"d1", [10, 11], [], 0, 0⟩), (1, ⟨"d2", [12, 13], [], 0, 0⟩)]
    nextId := 100 }

end Lumen

namespace Lumen

/-! ## simulate: coherence regime and the incoherent chain rebuild
(simulation.py lines 82-351)

`simulate` raises `EmptyInterface` when the circuit has no inputs or no
outputs, deep-copies the circuit (all operations below act on the copy, so
the copy is implicit in the state-passing embedding), decides the
coherence regime (`_check_coherence`: exactly one circuit input →
coherent), condenses the copy, and dispatches.  The embedding
`simulateModel` covers the control path up to and including the
per-wavelength condensed-chain rebuild of the *incoherent* branch; branches
beyond the modelled fragment (the coherent solver path, and the incoherent
matrix assembly/solve that follows a successful rebuild) are represented by
a bare `.ok ()`, which only ever matters when no exception was raised
first.  A laser is embedded by its wavelength-sampling function
`time → wavelength`, indexed by the input port carrying it. -/

inductive CoherenceM where
  | coherent
  | incoherent
  deriving DecidableEq, Repr

/-- Embedding of `Simulation._check_coherence` (simulation.py lines
794-809): one circuit input → coherent, anything else → incoherent. -/
def checkCoherence (c : CircuitState) : CoherenceM :=
  if c.circuitInputs.length = 1 then .coherent else .incoherent

/-- The incoherent wavelength scan (simulation.py lines 222-238): per
laser, max/min over all sampled wavelengths starting from `times[0]`;
`constant_wavelength` is cleared when a laser's spread exceeds the 1e-9
tolerance. -/
def incoherentConstantWavelength (inputs : List ℕ) (lasers : ℕ → ℚ → ℚ)
    (t0 : ℚ) (times : List ℚ) : Bool :=
  inputs.foldl (fun constant pid =>
    let mm := times.foldl (fun mm t => wavelengthScanStep mm (lasers pid t))
      (lasers pid t0, lasers pid t0)
    if constant ∧ mm.1 - mm.2 > WAVELENGTH_TOLERANCE then false else constant) true

/-- The per-wavelength rebuild of the condensed components in the
incoherent branch (simulation.py lines 240, 249-252 and 305-308):
`chain_to_condensed_component` is created as an *empty* dict (line 240) and
never populated (`_condense_circuit` uses the coherent helper;
`_condense_sequential_chain_incoherent`, which would insert, is never
called by `simulate`), and the loop body subscripts it with
`sequential_path`, a Python `list`; hashing a list raises
`TypeError: unhashable type: 'list'` before any key comparison, so the
body raises on the first chain.  With no chains the loop does nothing. -/
def rebuildCondensedChains (paths : List (List ℕ)) : Except CircuitExc Unit :=
  match paths with
  | [] => .ok ()
  | _ :: _ => .error .typeErrorUnhashable

/-- The incoherent per-time, per-source loop (simulation.py lines 244-252
and 300-308): for every sample time and every laser, the body first
rebuilds every condensed chain (raising as `rebuildCondensedChains`
describes); the assembly and solve below that point are beyond the
modelled fragment. -/
def incoherentPerSourceLoop (inputs : List ℕ) (times : List ℚ)
    (paths : List (List ℕ)) : Except CircuitExc Unit :=
  times.foldlM (fun _ _ =>
    inputs.foldlM (fun _ _ => rebuildCondensedChains paths) ()) ()

/-- Embedding of the `simulate` control path (simulation.py lines 82-120
and 220-351) down to the incoherent chain rebuild. -/
def simulateModel (c : CircuitState) (lasers : ℕ → ℚ → ℚ) (times : List ℚ)
    (fuel : ℕ) : Except CircuitExc Unit :=
  if c.circuitInputs.length = 0 ∨ c.circuitOutputs.length = 0 then
    .error .emptyInterface
  else
    let coh := checkCoherence c
    match condenseCircuit c fuel with
    | .error e => .error e
    | .ok (c', paths) =>
      match coh with
      | .coherent => .ok ()
      | .incoherent =>
        match times with
        | [] => if c'.circuitInputs.isEmpty then .ok () else .error .indexError
        | t0 :: _ =>
          if incoherentConstantWavelength c'.circuitInputs lasers t0 times then
            incoherentPerSourceLoop c'.circuitInputs times paths
          else
            incoherentPerSourceLoop c'.circuitInputs times paths

/-- Witness circuit for the incoherent-crash claim: two lasers (ports 0
and 4), one output (port 3), and the sequential chain `s1 → s2` of length
two between the first laser and the output; `x` is an anchor
(out-degree 0) carrying the second laser. -/
def incoherentChainExample : CircuitState :=
  { components := [0, 1, 2]
    namesToComponents := [("s1", 0), ("s2", 1), ("x", 2)]
    circuitInputs := [0, 4]
    circuitOutputs := [3]
    portHeap := [(0, ⟨0, .input, some .inputTag⟩), (1, ⟨0, .output, some (.toPort 2)⟩),
                 (2, ⟨1, .input, some (.toPort 1)⟩), (3, ⟨1, .output, some .outputTag⟩),
                 (4, ⟨2, .input, some .inputTag⟩), (5, ⟨2, .output, none⟩)]
    compHeap := [(0, ⟨"s1", [0, 1], [], 1, 1⟩), (1, ⟨"s2", [2, 3], [], 1, 1⟩),
                 (2, ⟨"x", [4, 5], [], 1, 0⟩)]
    nextId := 100 }

end Lumen

-- ===================== THEOREMS =====================

/-- **C1.** `_select_solver` is a deterministic function of `(d, nnz)` (it is
embedded as such, reading only the dimension and the nonzero count), and for
every dimension `d > 0` it follows exactly the cascade stated in the spec:
DENSE for `d < 1000`, else SPARSE when `d² · 16` bytes exceed 8 GiB, else
SPARSE when the density is below 0.02, else DENSE.  In particular
`d = 2000, nnz = 0.01 · d² = 40000` selects SPARSE and `d = 900` (any nnz)
selects DENSE. -/
theorem C1_select_solver (d nnz : ℕ) (hd : 0 < d) :
    Lumen.selectSolver d nnz = Lumen.selectSolverSpec d nnz ∧
    Lumen.selectSolver 2000 40000 = Lumen.MatrixSolver.SPARSE ∧
    (∀ m : ℕ, Lumen.selectSolver 900 m = Lumen.MatrixSolver.DENSE) := by
  refine ⟨?_, ?_, fun m => ?_⟩
  · unfold Lumen.selectSolver Lumen.selectSolverSpec
    have h2 : ((d : ℚ) ^ 2) ≠ 0 := by
      have : (0 : ℚ) < (d : ℚ) ^ 2 := by positivity
      exact ne_of_gt this
    have hgb : ((Lumen.GB_TO_BYTES : ℕ) : ℚ) = 1024 ^ 3 := by norm_num [Lumen.GB_TO_BYTES]
    have hcs : ((Lumen.COMPLEX_SIZE_BYTES : ℕ) : ℚ) = 16 := by norm_num [Lumen.COMPLEX_SIZE_BYTES]
    have hml : ((Lumen.MEMORY_LIMIT_GB : ℕ) : ℚ) = 8 := by norm_num [Lumen.MEMORY_LIMIT_GB]
    have hiff : ((d : ℚ) ^ 2 * (Lumen.COMPLEX_SIZE_BYTES : ℚ)) / (Lumen.GB_TO_BYTES : ℚ) >
        (Lumen.MEMORY_LIMIT_GB : ℚ) ↔ (8 : ℚ) * 1024 ^ 3 < (d : ℚ) ^ 2 * 16 := by
      rw [hgb, hcs, hml, gt_iff_lt, lt_div_iff₀ (by norm_num : (0 : ℚ) < 1024 ^ 3)]
    simp only [Lumen.DENSE_DOMAIN_SIZE, Lumen.LIMITING_DENSITY]
    by_cases h1 : d < 1000
    · simp [h1]
    · simp only [h1, if_false]
      by_cases hmem : ((d : ℚ) ^ 2 * (Lumen.COMPLEX_SIZE_BYTES : ℚ)) / (Lumen.GB_TO_BYTES : ℚ) >
          (Lumen.MEMORY_LIMIT_GB : ℚ)
      · rw [if_pos hmem, if_pos (hiff.mp hmem)]
      · rw [if_neg hmem, if_neg (fun hc => hmem (hiff.mpr hc))]
  · unfold Lumen.selectSolver
    norm_num [Lumen.DENSE_DOMAIN_SIZE, Lumen.GB_TO_BYTES, Lumen.COMPLEX_SIZE_BYTES,
      Lumen.MEMORY_LIMIT_GB, Lumen.LIMITING_DENSITY]
  · unfold Lumen.selectSolver
    have h900 : (900 : ℕ) < Lumen.DENSE_DOMAIN_SIZE := by norm_num [Lumen.DENSE_DOMAIN_SIZE]
    simp [h900]

/-- Witness for C1 at the concrete input `d = 2000`, `nnz = 40000`. -/
theorem C1_select_solver_witness :
    0 < 2000 ∧ Lumen.selectSolver 2000 40000 = Lumen.selectSolverSpec 2000 40000 :=
  ⟨by decide, (C1_select_solver 2000 40000 (by decide)).1⟩


/-- **Counterexample to C2 as stated.**  The claim asserts that *each*
library component class's `__init__` invokes `Component.__init__` with
exactly three arguments, the `TypeError` coming from the missing fourth
`s_matrix` argument.  The quarter-wave-plate class `QWP` (qwp.py line 31)
passes four arguments — `(name, 1, 1, s_matrix)` — so its `super()` call
binds successfully and is not short of `s_matrix`. -/
theorem C2_counterexample :
    ¬ (∀ c : Lumen.LibraryComponent, Lumen.superInitArgCount c = 3) := by
  intro h
  exact absurd (h .qwp) (by decide)

/-- **C2 (amended).**  Calling the constructor of any concrete library
component class raises `TypeError`, so none of them can be instantiated;
every class except `QWP` passes exactly three arguments to
`Component.__init__` (which requires four, `s_matrix` missing), while `QWP`
passes all four and instead hits the `TypeError` raised inside
`Component.__init__`'s body, where each port is created as `Port(self)`
without the mandatory `port_type` argument. -/
theorem C2_no_component_instantiable :
    ∀ c : Lumen.LibraryComponent,
      Lumen.constructLibraryComponent c = Lumen.PyOutcome.typeError ∧
      Lumen.superInitArgCount c = (if c = .qwp then 4 else 3) ∧
      Lumen.pyCallPort 1 = Lumen.PyOutcome.typeError := by
  intro c
  cases c <;> decide

namespace Lumen

theorem wavelengthScanStep_eq (mx mn w : ℚ) (h : mn ≤ mx) :
    wavelengthScanStep (mx, mn) w = (max mx w, min mn w) := by
  unfold wavelengthScanStep
  by_cases h1 : w > mx
  · simp only [h1, if_true]
    rw [max_eq_right h1.le, min_eq_left (h.trans h1.le)]
  · simp only [h1, if_false]
    push_neg at h1
    by_cases h2 : w < mn
    · simp only [h2, if_true]
      rw [max_eq_left h1, min_eq_right h2.le]
    · simp only [h2, if_false]
      push_neg at h2
      rw [max_eq_left h1, min_eq_left h2]

theorem wavelengthScanFold (ws : List ℚ) :
    ∀ mx mn : ℚ, mn ≤ mx →
      ws.foldl wavelengthScanStep (mx, mn) = (ws.foldl max mx, ws.foldl min mn) := by
  induction ws with
  | nil => intro mx mn _; rfl
  | cons w ws ih =>
    intro mx mn h
    simp only [List.foldl_cons]
    rw [wavelengthScanStep_eq mx mn w h]
    exact ih (max mx w) (min mn w)
      (le_trans (min_le_left mn w) (h.trans (le_max_left mx w)))

section

variable {F : Type} [Field F]

/-- Definitional unfolding of `redhefferStar` into its four blocks. -/
theorem redhefferStar_def (A B : Matrix (Fin 4) (Fin 4) F) :
    redhefferStar A B = block4
      (blk11 A + blk12 A * blk11 B * inv2 (1 - blk22 A * blk11 B) * blk21 A)
      (blk12 A * inv2 (1 - blk22 A * blk11 B) * blk12 B)
      (blk21 B * inv2 (1 - blk11 B * blk22 A) * blk21 A)
      (blk22 B + blk21 B * blk22 A * inv2 (1 - blk11 B * blk22 A) * blk12 B) := rfl

theorem det2_eq_det (M : Matrix (Fin 2) (Fin 2) F) : det2 M = M.det := by
  rw [Matrix.det_fin_two]; rfl

/-- `inv2` is the genuine inverse on nonsingular arguments, so it embeds
`np.linalg.inv` faithfully wherever the interior is invertible. -/
theorem inv2_mul_self (M : Matrix (Fin 2) (Fin 2) F) (h : det2 M ≠ 0) :
    inv2 M * M = 1 := by
  unfold inv2 det2 at *
  ext i j
  fin_cases i <;> fin_cases j <;>
    simp [Matrix.mul_apply, Fin.sum_univ_two, Matrix.one_apply] <;>
    field_simp <;> ring

end

end Lumen

/-- **C5.** With one circuit input, the coherent branch takes the constant-λ
path iff the spread `max - min` of the laser wavelength sampled over the
whole `times` array is strictly below the 1e-9 tolerance; in particular the
sweep `[1550e-9, 1550e-9 + 9e-10]` (spread 9e-10) is marked constant and the
sweep `[1550e-9, 1550e-9 + 1.1e-9]` (spread 1.1e-9) is marked varying. -/
theorem C5_constant_wavelength_tolerance :
    (∀ (laser : ℚ → ℚ) (t0 : ℚ) (ts : List ℚ),
      (Lumen.coherentConstantWavelength laser (t0 :: ts) = some true ↔
        (ts.map laser).foldl max (laser t0) - (ts.map laser).foldl min (laser t0)
          < 1 / 1000000000)) ∧
    Lumen.coherentConstantWavelength
      (fun t => 1550 / 10 ^ 9 + t) [0, 9 / 10 ^ 10] = some true ∧
    Lumen.coherentConstantWavelength
      (fun t => 1550 / 10 ^ 9 + t) [0, 11 / 10 ^ 10] = some false := by
  refine ⟨fun laser t0 ts => ?_, ?_, ?_⟩
  · have hfold : (t0 :: ts).foldl (fun mm t => Lumen.wavelengthScanStep mm (laser t))
        (laser t0, laser t0) = ((ts.map laser).foldl max (laser t0),
          (ts.map laser).foldl min (laser t0)) := by
      have h0 : Lumen.wavelengthScanStep (laser t0, laser t0) (laser t0)
          = (laser t0, laser t0) := by
        unfold Lumen.wavelengthScanStep
        simp
      rw [List.foldl_cons, h0, ← List.foldl_map laser Lumen.wavelengthScanStep]
      exact Lumen.wavelengthScanFold (ts.map laser) (laser t0) (laser t0) le_rfl
    unfold Lumen.coherentConstantWavelength
    simp only [hfold]
    simp [Lumen.WAVELENGTH_TOLERANCE]
  · unfold Lumen.coherentConstantWavelength Lumen.wavelengthScanStep
    norm_num [Lumen.WAVELENGTH_TOLERANCE]
  · unfold Lumen.coherentConstantWavelength Lumen.wavelengthScanStep
    norm_num [Lumen.WAVELENGTH_TOLERANCE]

theorem cexAB_eq : Lumen.redhefferStar Lumen.cexA Lumen.cexB =
    !![(0 : ℚ), 0, 0, 0;
       0, 0, 0, 0;
       0, 0, 1, 1;
       0, 0, 0, 0] := by
  have hA11 : Lumen.blk11 Lumen.cexA = !![(0 : ℚ), 0; 0, 0] := by
    ext i j
    fin_cases i <;> fin_cases j <;>
      norm_num [Lumen.blk11, Lumen.blk12, Lumen.blk21, Lumen.blk22, Lumen.inv2,
        Lumen.det2, Lumen.block4, Lumen.cexA, Lumen.cexB, Lumen.cexC,
        Matrix.mul_apply, Fin.sum_univ_two, Matrix.vecHead, Matrix.vecTail]
  have hA12 : Lumen.blk12 Lumen.cexA = !![(0 : ℚ), 0; 0, 0] := by
    ext i j
    fin_cases i <;> fin_cases j <;>
      norm_num [Lumen.blk11, Lumen.blk12, Lumen.blk21, Lumen.blk22, Lumen.inv2,
        Lumen.det2, Lumen.block4, Lumen.cexA, Lumen.cexB, Lumen.cexC,
        Matrix.mul_apply, Fin.sum_univ_two, Matrix.vecHead, Matrix.vecTail]
  have hA21 : Lumen.blk21 Lumen.cexA = !![(0 : ℚ), 0; 0, 0] := by
    ext i j
    fin_cases i <;> fin_cases j <;>
      norm_num [Lumen.blk11, Lumen.blk12, Lumen.blk21, Lumen.blk22, Lumen.inv2,
        Lumen.det2, Lumen.block4, Lumen.cexA, Lumen.cexB, Lumen.cexC,
        Matrix.mul_apply, Fin.sum_univ_two, Matrix.vecHead, Matrix.vecTail]
  have hA22 : Lumen.blk22 Lumen.cexA = !![(0 : ℚ), 0; 1, 0] := by
    ext i j
    fin_cases i <;> fin_cases j <;>
      norm_num [Lumen.blk11, Lumen.blk12, Lumen.blk21, Lumen.blk22, Lumen.inv2,
        Lumen.det2, Lumen.block4, Lumen.cexA, Lumen.cexB, Lumen.cexC,
        Matrix.mul_apply, Fin.sum_univ_two, Matrix.vecHead, Matrix.vecTail]
  have hB11 : Lumen.blk11 Lumen.cexB = !![(0 : ℚ), 0; 0, 0] := by
    ext i j
    fin_cases i <;> fin_cases j <;>
      norm_num [Lumen.blk11, Lumen.blk12, Lumen.blk21, Lumen.blk22, Lumen.inv2,
        Lumen.det2, Lumen.block4, Lumen.cexA, Lumen.cexB, Lumen.cexC,
        Matrix.mul_apply, Fin.sum_univ_two, Matrix.vecHead, Matrix.vecTail]
  have hB12 : Lumen.blk12 Lumen.cexB = !![(0 : ℚ), 1; 0, 0] := by
    ext i j
    fin_cases i <;> fin_cases j <;>
      norm_num [Lumen.blk11, Lumen.blk12, Lumen.blk21, Lumen.blk22, Lumen.inv2,
        Lumen.det2, Lumen.block4, Lumen.cexA, Lumen.cexB, Lumen.cexC,
        Matrix.mul_apply, Fin.sum_univ_two, Matrix.vecHead, Matrix.vecTail]
  have hB21 : Lumen.blk21 Lumen.cexB = !![(0 : ℚ), 1; 0, 0] := by
    ext i j
    fin_cases i <;> fin_cases j <;>
      norm_num [Lumen.blk11, Lumen.blk12, Lumen.blk21, Lumen.blk22, Lumen.inv2,
        Lumen.det2, Lumen.block4, Lumen.cexA, Lumen.cexB, Lumen.cexC,
        Matrix.mul_apply, Fin.sum_univ_two, Matrix.vecHead, Matrix.vecTail]
  have hB22 : Lumen.blk22 Lumen.cexB = !![(1 : ℚ), 0; 0, 0] := by
    ext i j
    fin_cases i <;> fin_cases j <;>
      norm_num [Lumen.blk11, Lumen.blk12, Lumen.blk21, Lumen.blk22, Lumen.inv2,
        Lumen.det2, Lumen.block4, Lumen.cexA, Lumen.cexB, Lumen.cexC,
        Matrix.mul_apply, Fin.sum_univ_two, Matrix.vecHead, Matrix.vecTail]
  have hI1 : (1 : Matrix (Fin 2) (Fin 2) ℚ) - !![(0 : ℚ), 0; 1, 0] * !![(0 : ℚ), 0; 0, 0] = !![(1 : ℚ), 0; 0, 1] := by
    ext i j
    fin_cases i <;> fin_cases j <;>
      norm_num [Lumen.blk11, Lumen.blk12, Lumen.blk21, Lumen.blk22, Lumen.inv2,
        Lumen.det2, Lumen.block4, Lumen.cexA, Lumen.cexB, Lumen.cexC,
        Matrix.mul_apply, Fin.sum_univ_two, Matrix.vecHead, Matrix.vecTail]
  have hI2 : (1 : Matrix (Fin 2) (Fin 2) ℚ) - !![(0 : ℚ), 0; 0, 0] * !![(0 : ℚ), 0; 1, 0] = !![(1 : ℚ), 0; 0, 1] := by
    ext i j
    fin_cases i <;> fin_cases j <;>
      norm_num [Lumen.blk11, Lumen.blk12, Lumen.blk21, Lumen.blk22, Lumen.inv2,
        Lumen.det2, Lumen.block4, Lumen.cexA, Lumen.cexB, Lumen.cexC,
        Matrix.mul_apply, Fin.sum_univ_two, Matrix.vecHead, Matrix.vecTail]
  have hD1 : Lumen.inv2 !![(1 : ℚ), 0; 0, 1] = !![(1 : ℚ), 0; 0, 1] := by
    ext i j
    fin_cases i <;> fin_cases j <;>
      norm_num [Lumen.blk11, Lumen.blk12, Lumen.blk21, Lumen.blk22, Lumen.inv2,
        Lumen.det2, Lumen.block4, Lumen.cexA, Lumen.cexB, Lumen.cexC,
        Matrix.mul_apply, Fin.sum_univ_two, Matrix.vecHead, Matrix.vecTail]
  have hs11 : !![(0 : ℚ), 0; 0, 0] + !![(0 : ℚ), 0; 0, 0] * !![(0 : ℚ), 0; 0, 0] * !![(1 : ℚ), 0; 0, 1] * !![(0 : ℚ), 0; 0, 0] = !![(0 : ℚ), 0; 0, 0] := by
    ext i j
    fin_cases i <;> fin_cases j <;>
      norm_num [Lumen.blk11, Lumen.blk12, Lumen.blk21, Lumen.blk22, Lumen.inv2,
        Lumen.det2, Lumen.block4, Lumen.cexA, Lumen.cexB, Lumen.cexC,
        Matrix.mul_apply, Fin.sum_univ_two, Matrix.vecHead, Matrix.vecTail]
  have hs12 : !![(0 : ℚ), 0; 0, 0] * !![(1 : ℚ), 0; 0, 1] * !![(0 : ℚ), 1; 0, 0] = !![(0 : ℚ), 0; 0, 0] := by
    ext i j
    fin_cases i <;> fin_cases j <;>
      norm_num [Lumen.blk11, Lumen.blk12, Lumen.blk21, Lumen.blk22, Lumen.inv2,
        Lumen.det2, Lumen.block4, Lumen.cexA, Lumen.cexB, Lumen.cexC,
        Matrix.mul_apply, Fin.sum_univ_two, Matrix.vecHead, Matrix.vecTail]
  have hs21 : !![(0 : ℚ), 1; 0, 0] * !![(1 : ℚ), 0; 0, 1] * !![(0 : ℚ), 0; 0, 0] = !![(0 : ℚ), 0; 0, 0] := by
    ext i j
    fin_cases i <;> fin_cases j <;>
      norm_num [Lumen.blk11, Lumen.blk12, Lumen.blk21, Lumen.blk22, Lumen.inv2,
        Lumen.det2, Lumen.block4, Lumen.cexA, Lumen.cexB, Lumen.cexC,
        Matrix.mul_apply, Fin.sum_univ_two, Matrix.vecHead, Matrix.vecTail]
  have hs22 : !![(1 : ℚ), 0; 0, 0] + !![(0 : ℚ), 1; 0, 0] * !![(0 : ℚ), 0; 1, 0] * !![(1 : ℚ), 0; 0, 1] * !![(0 : ℚ), 1; 0, 0] = !![(1 : ℚ), 1; 0, 0] := by
    ext i j
    fin_cases i <;> fin_cases j <;>
      norm_num [Lumen.blk11, Lumen.blk12, Lumen.blk21, Lumen.blk22, Lumen.inv2,
        Lumen.det2, Lumen.block4, Lumen.cexA, Lumen.cexB, Lumen.cexC,
        Matrix.mul_apply, Fin.sum_univ_two, Matrix.vecHead, Matrix.vecTail]
  rw [Lumen.redhefferStar_def, hA11, hA12, hA21, hA22, hB11, hB12, hB21, hB22, hI1, hI2, hD1, hs11, hs12, hs21, hs22]
  ext i j
  fin_cases i <;> fin_cases j <;>
    norm_num [Lumen.blk11, Lumen.blk12, Lumen.blk21, Lumen.blk22, Lumen.inv2,
        Lumen.det2, Lumen.block4, Lumen.cexA, Lumen.cexB, Lumen.cexC,
        Matrix.mul_apply, Fin.sum_univ_two, Matrix.vecHead, Matrix.vecTail]

theorem cexBC_eq : Lumen.redhefferStar Lumen.cexB Lumen.cexC =
    !![(0 : ℚ), (1/2), 0, 1;
       0, 0, 0, 0;
       0, (1/2), 0, 0;
       0, 0, 0, 0] := by
  have hA11 : Lumen.blk11 Lumen.cexB = !![(0 : ℚ), 0; 0, 0] := by
    ext i j
    fin_cases i <;> fin_cases j <;>
      norm_num [Lumen.blk11, Lumen.blk12, Lumen.blk21, Lumen.blk22, Lumen.inv2,
        Lumen.det2, Lumen.block4, Lumen.cexA, Lumen.cexB, Lumen.cexC,
        Matrix.mul_apply, Fin.sum_univ_two, Matrix.vecHead, Matrix.vecTail]
  have hA12 : Lumen.blk12 Lumen.cexB = !![(0 : ℚ), 1; 0, 0] := by
    ext i j
    fin_cases i <;> fin_cases j <;>
      norm_num [Lumen.blk11, Lumen.blk12, Lumen.blk21, Lumen.blk22, Lumen.inv2,
        Lumen.det2, Lumen.block4, Lumen.cexA, Lumen.cexB, Lumen.cexC,
        Matrix.mul_apply, Fin.sum_univ_two, Matrix.vecHead, Matrix.vecTail]
  have hA21 : Lumen.blk21 Lumen.cexB = !![(0 : ℚ), 1; 0, 0] := by
    ext i j
    fin_cases i <;> fin_cases j <;>
      norm_num [Lumen.blk11, Lumen.blk12, Lumen.blk21, Lumen.blk22, Lumen.inv2,
        Lumen.det2, Lumen.block4, Lumen.cexA, Lumen.cexB, Lumen.cexC,
        Matrix.mul_apply, Fin.sum_univ_two, Matrix.vecHead, Matrix.vecTail]
  have hA22 : Lumen.blk22 Lumen.cexB = !![(1 : ℚ), 0; 0, 0] := by
    ext i j
    fin_cases i <;> fin_cases j <;>
      norm_num [Lumen.blk11, Lumen.blk12, Lumen.blk21, Lumen.blk22, Lumen.inv2,
        Lumen.det2, Lumen.block4, Lumen.cexA, Lumen.cexB, Lumen.cexC,
        Matrix.mul_apply, Fin.sum_univ_two, Matrix.vecHead, Matrix.vecTail]
  have hB11 : Lumen.blk11 Lumen.cexC = !![(-1 : ℚ), 0; 1, 0] := by
    ext i j
    fin_cases i <;> fin_cases j <;>
      norm_num [Lumen.blk11, Lumen.blk12, Lumen.blk21, Lumen.blk22, Lumen.inv2,
        Lumen.det2, Lumen.block4, Lumen.cexA, Lumen.cexB, Lumen.cexC,
        Matrix.mul_apply, Fin.sum_univ_two, Matrix.vecHead, Matrix.vecTail]
  have hB12 : Lumen.blk12 Lumen.cexC = !![(0 : ℚ), 0; 0, 1] := by
    ext i j
    fin_cases i <;> fin_cases j <;>
      norm_num [Lumen.blk11, Lumen.blk12, Lumen.blk21, Lumen.blk22, Lumen.inv2,
        Lumen.det2, Lumen.block4, Lumen.cexA, Lumen.cexB, Lumen.cexC,
        Matrix.mul_apply, Fin.sum_univ_two, Matrix.vecHead, Matrix.vecTail]
  have hB21 : Lumen.blk21 Lumen.cexC = !![(0 : ℚ), 1; 0, 0] := by
    ext i j
    fin_cases i <;> fin_cases j <;>
      norm_num [Lumen.blk11, Lumen.blk12, Lumen.blk21, Lumen.blk22, Lumen.inv2,
        Lumen.det2, Lumen.block4, Lumen.cexA, Lumen.cexB, Lumen.cexC,
        Matrix.mul_apply, Fin.sum_univ_two, Matrix.vecHead, Matrix.vecTail]
  have hB22 : Lumen.blk22 Lumen.cexC = !![(0 : ℚ), 0; 0, 0] := by
    ext i j
    fin_cases i <;> fin_cases j <;>
      norm_num [Lumen.blk11, Lumen.blk12, Lumen.blk21, Lumen.blk22, Lumen.inv2,
        Lumen.det2, Lumen.block4, Lumen.cexA, Lumen.cexB, Lumen.cexC,
        Matrix.mul_apply, Fin.sum_univ_two, Matrix.vecHead, Matrix.vecTail]
  have hI1 : (1 : Matrix (Fin 2) (Fin 2) ℚ) - !![(1 : ℚ), 0; 0, 0] * !![(-1 : ℚ), 0; 1, 0] = !![(2 : ℚ), 0; 0, 1] := by
    ext i j
    fin_cases i <;> fin_cases j <;>
      norm_num [Lumen.blk11, Lumen.blk12, Lumen.blk21, Lumen.blk22, Lumen.inv2,
        Lumen.det2, Lumen.block4, Lumen.cexA, Lumen.cexB, Lumen.cexC,
        Matrix.mul_apply, Fin.sum_univ_two, Matrix.vecHead, Matrix.vecTail]
  have hI2 : (1 : Matrix (Fin 2) (Fin 2) ℚ) - !![(-1 : ℚ), 0; 1, 0] * !![(1 : ℚ), 0; 0, 0] = !![(2 : ℚ), 0; (-1), 1] := by
    ext i j
    fin_cases i <;> fin_cases j <;>
      norm_num [Lumen.blk11, Lumen.blk12, Lumen.blk21, Lumen.blk22, Lumen.inv2,
        Lumen.det2, Lumen.block4, Lumen.cexA, Lumen.cexB, Lumen.cexC,
        Matrix.mul_apply, Fin.sum_univ_two, Matrix.vecHead, Matrix.vecTail]
  have hD1 : Lumen.inv2 !![(2 : ℚ), 0; 0, 1] = !![(1/2 : ℚ), 0; 0, 1] := by
    ext i j
    fin_cases i <;> fin_cases j <;>
      norm_num [Lumen.blk11, Lumen.blk12, Lumen.blk21, Lumen.blk22, Lumen.inv2,
        Lumen.det2, Lumen.block4, Lumen.cexA, Lumen.cexB, Lumen.cexC,
        Matrix.mul_apply, Fin.sum_univ_two, Matrix.vecHead, Matrix.vecTail]
  have hD2 : Lumen.inv2 !![(2 : ℚ), 0; (-1), 1] = !![(1/2 : ℚ), 0; (1/2), 1] := by
    ext i j
    fin_cases i <;> fin_cases j <;>
      norm_num [Lumen.blk11, Lumen.blk12, Lumen.blk21, Lumen.blk22, Lumen.inv2,
        Lumen.det2, Lumen.block4, Lumen.cexA, Lumen.cexB, Lumen.cexC,
        Matrix.mul_apply, Fin.sum_univ_two, Matrix.vecHead, Matrix.vecTail]
  have hs11 : !![(0 : ℚ), 0; 0, 0] + !![(0 : ℚ), 1; 0, 0] * !![(-1 : ℚ), 0; 1, 0] * !![(1/2 : ℚ), 0; 0, 1] * !![(0 : ℚ), 1; 0, 0] = !![(0 : ℚ), (1/2); 0, 0] := by
    ext i j
    fin_cases i <;> fin_cases j <;>
      norm_num [Lumen.blk11, Lumen.blk12, Lumen.blk21, Lumen.blk22, Lumen.inv2,
        Lumen.det2, Lumen.block4, Lumen.cexA, Lumen.cexB, Lumen.cexC,
        Matrix.mul_apply, Fin.sum_univ_two, Matrix.vecHead, Matrix.vecTail]
  have hs12 : !![(0 : ℚ), 1; 0, 0] * !![(1/2 : ℚ), 0; 0, 1] * !![(0 : ℚ), 0; 0, 1] = !![(0 : ℚ), 1; 0, 0] := by
    ext i j
    fin_cases i <;> fin_cases j <;>
      norm_num [Lumen.blk11, Lumen.blk12, Lumen.blk21, Lumen.blk22, Lumen.inv2,
        Lumen.det2, Lumen.block4, Lumen.cexA, Lumen.cexB, Lumen.cexC,
        Matrix.mul_apply, Fin.sum_univ_two, Matrix.vecHead, Matrix.vecTail]
  have hs21 : !![(0 : ℚ), 1; 0, 0] * !![(1/2 : ℚ), 0; (1/2), 1] * !![(0 : ℚ), 1; 0, 0] = !![(0 : ℚ), (1/2); 0, 0] := by
    ext i j
    fin_cases i <;> fin_cases j <;>
      norm_num [Lumen.blk11, Lumen.blk12, Lumen.blk21, Lumen.blk22, Lumen.inv2,
        Lumen.det2, Lumen.block4, Lumen.cexA, Lumen.cexB, Lumen.cexC,
        Matrix.mul_apply, Fin.sum_univ_two, Matrix.vecHead, Matrix.vecTail]
  have hs22 : !![(0 : ℚ), 0; 0, 0] + !![(0 : ℚ), 1; 0, 0] * !![(1 : ℚ), 0; 0, 0] * !![(1/2 : ℚ), 0; (1/2), 1] * !![(0 : ℚ), 0; 0, 1] = !![(0 : ℚ), 0; 0, 0] := by
    ext i j
    fin_cases i <;> fin_cases j <;>
      norm_num [Lumen.blk11, Lumen.blk12, Lumen.blk21, Lumen.blk22, Lumen.inv2,
        Lumen.det2, Lumen.block4, Lumen.cexA, Lumen.cexB, Lumen.cexC,
        Matrix.mul_apply, Fin.sum_univ_two, Matrix.vecHead, Matrix.vecTail]
  rw [Lumen.redhefferStar_def, hA11, hA12, hA21, hA22, hB11, hB12, hB21, hB22, hI1, hI2, hD1, hD2, hs11, hs12, hs21, hs22]
  ext i j
  fin_cases i <;> fin_cases j <;>
    norm_num [Lumen.blk11, Lumen.blk12, Lumen.blk21, Lumen.blk22, Lumen.inv2,
        Lumen.det2, Lumen.block4, Lumen.cexA, Lumen.cexB, Lumen.cexC,
        Matrix.mul_apply, Fin.sum_univ_two, Matrix.vecHead, Matrix.vecTail]

theorem cexAB_C_eq : Lumen.redhefferStar (!![(0 : ℚ), 0, 0, 0;
           0, 0, 0, 0;
           0, 0, 1, 1;
           0, 0, 0, 0]) Lumen.cexC =
    !![(0 : ℚ), 0, 0, 0;
       0, 0, 0, 0;
       0, 0, 0, 0;
       0, 0, 0, 0] := by
  have hA11 : Lumen.blk11 (!![(0 : ℚ), 0, 0, 0;
           0, 0, 0, 0;
           0, 0, 1, 1;
           0, 0, 0, 0]) = !![(0 : ℚ), 0; 0, 0] := by
    ext i j
    fin_cases i <;> fin_cases j <;>
      norm_num [Lumen.blk11, Lumen.blk12, Lumen.blk21, Lumen.blk22, Lumen.inv2,
        Lumen.det2, Lumen.block4, Lumen.cexA, Lumen.cexB, Lumen.cexC,
        Matrix.mul_apply, Fin.sum_univ_two, Matrix.vecHead, Matrix.vecTail]
  have hA12 : Lumen.blk12 (!![(0 : ℚ), 0, 0, 0;
           0, 0, 0, 0;
           0, 0, 1, 1;
           0, 0, 0, 0]) = !![(0 : ℚ), 0; 0, 0] := by
    ext i j
    fin_cases i <;> fin_cases j <;>
      norm_num [Lumen.blk11, Lumen.blk12, Lumen.blk21, Lumen.blk22, Lumen.inv2,
        Lumen.det2, Lumen.block4, Lumen.cexA, Lumen.cexB, Lumen.cexC,
        Matrix.mul_apply, Fin.sum_univ_two, Matrix.vecHead, Matrix.vecTail]
  have hA21 : Lumen.blk21 (!![(0 : ℚ), 0, 0, 0;
           0, 0, 0, 0;
           0, 0, 1, 1;
           0, 0, 0, 0]) = !![(0 : ℚ), 0; 0, 0] := by
    ext i j
    fin_cases i <;> fin_cases j <;>
      norm_num [Lumen.blk11, Lumen.blk12, Lumen.blk21, Lumen.blk22, Lumen.inv2,
        Lumen.det2, Lumen.block4, Lumen.cexA, Lumen.cexB, Lumen.cexC,
        Matrix.mul_apply, Fin.sum_univ_two, Matrix.vecHead, Matrix.vecTail]
  have hA22 : Lumen.blk22 (!![(0 : ℚ), 0, 0, 0;
           0, 0, 0, 0;
           0, 0, 1, 1;
           0, 0, 0, 0]) = !![(1 : ℚ), 1; 0, 0] := by
    ext i j
    fin_cases i <;> fin_cases j <;>
      norm_num [Lumen.blk11, Lumen.blk12, Lumen.blk21, Lumen.blk22, Lumen.inv2,
        Lumen.det2, Lumen.block4, Lumen.cexA, Lumen.cexB, Lumen.cexC,
        Matrix.mul_apply, Fin.sum_univ_two, Matrix.vecHead, Matrix.vecTail]
  have hB11 : Lumen.blk11 Lumen.cexC = !![(-1 : ℚ), 0; 1, 0] := by
    ext i j
    fin_cases i <;> fin_cases j <;>
      norm_num [Lumen.blk11, Lumen.blk12, Lumen.blk21, Lumen.blk22, Lumen.inv2,
        Lumen.det2, Lumen.block4, Lumen.cexA, Lumen.cexB, Lumen.cexC,
        Matrix.mul_apply, Fin.sum_univ_two, Matrix.vecHead, Matrix.vecTail]
  have hB12 : Lumen.blk12 Lumen.cexC = !![(0 : ℚ), 0; 0, 1] := by
    ext i j
    fin_cases i <;> fin_cases j <;>
      norm_num [Lumen.blk11, Lumen.blk12, Lumen.blk21, Lumen.blk22, Lumen.inv2,
        Lumen.det2, Lumen.block4, Lumen.cexA, Lumen.cexB, Lumen.cexC,
        Matrix.mul_apply, Fin.sum_univ_two, Matrix.vecHead, Matrix.vecTail]
  have hB21 : Lumen.blk21 Lumen.cexC = !![(0 : ℚ), 1; 0, 0] := by
    ext i j
    fin_cases i <;> fin_cases j <;>
      norm_num [Lumen.blk11, Lumen.blk12, Lumen.blk21, Lumen.blk22, Lumen.inv2,
        Lumen.det2, Lumen.block4, Lumen.cexA, Lumen.cexB, Lumen.cexC,
        Matrix.mul_apply, Fin.sum_univ_two, Matrix.vecHead, Matrix.vecTail]
  have hB22 : Lumen.blk22 Lumen.cexC = !![(0 : ℚ), 0; 0, 0] := by
    ext i j
    fin_cases i <;> fin_cases j <;>
      norm_num [Lumen.blk11, Lumen.blk12, Lumen.blk21, Lumen.blk22, Lumen.inv2,
        Lumen.det2, Lumen.block4, Lumen.cexA, Lumen.cexB, Lumen.cexC,
        Matrix.mul_apply, Fin.sum_univ_two, Matrix.vecHead, Matrix.vecTail]
  have hI1 : (1 : Matrix (Fin 2) (Fin 2) ℚ) - !![(1 : ℚ), 1; 0, 0] * !![(-1 : ℚ), 0; 1, 0] = !![(1 : ℚ), 0; 0, 1] := by
    ext i j
    fin_cases i <;> fin_cases j <;>
      norm_num [Lumen.blk11, Lumen.blk12, Lumen.blk21, Lumen.blk22, Lumen.inv2,
        Lumen.det2, Lumen.block4, Lumen.cexA, Lumen.cexB, Lumen.cexC,
        Matrix.mul_apply, Fin.sum_univ_two, Matrix.vecHead, Matrix.vecTail]
  have hI2 : (1 : Matrix (Fin 2) (Fin 2) ℚ) - !![(-1 : ℚ), 0; 1, 0] * !![(1 : ℚ), 1; 0, 0] = !![(2 : ℚ), 1; (-1), 0] := by
    ext i j
    fin_cases i <;> fin_cases j <;>
      norm_num [Lumen.blk11, Lumen.blk12, Lumen.blk21, Lumen.blk22, Lumen.inv2,
        Lumen.det2, Lumen.block4, Lumen.cexA, Lumen.cexB, Lumen.cexC,
        Matrix.mul_apply, Fin.sum_univ_two, Matrix.vecHead, Matrix.vecTail]
  have hD1 : Lumen.inv2 !![(1 : ℚ), 0; 0, 1] = !![(1 : ℚ), 0; 0, 1] := by
    ext i j
    fin_cases i <;> fin_cases j <;>
      norm_num [Lumen.blk11, Lumen.blk12, Lumen.blk21, Lumen.blk22, Lumen.inv2,
        Lumen.det2, Lumen.block4, Lumen.cexA, Lumen.cexB, Lumen.cexC,
        Matrix.mul_apply, Fin.sum_univ_two, Matrix.vecHead, Matrix.vecTail]
  have hD2 : Lumen.inv2 !![(2 : ℚ), 1; (-1), 0] = !![(0 : ℚ), (-1); 1, 2] := by
    ext i j
    fin_cases i <;> fin_cases j <;>
      norm_num [Lumen.blk11, Lumen.blk12, Lumen.blk21, Lumen.blk22, Lumen.inv2,
        Lumen.det2, Lumen.block4, Lumen.cexA, Lumen.cexB, Lumen.cexC,
        Matrix.mul_apply, Fin.sum_univ_two, Matrix.vecHead, Matrix.vecTail]
  have hs11 : !![(0 : ℚ), 0; 0, 0] + !![(0 : ℚ), 0; 0, 0] * !![(-1 : ℚ), 0; 1, 0] * !![(1 : ℚ), 0; 0, 1] * !![(0 : ℚ), 0; 0, 0] = !![(0 : ℚ), 0; 0, 0] := by
    ext i j
    fin_cases i <;> fin_cases j <;>
      norm_num [Lumen.blk11, Lumen.blk12, Lumen.blk21, Lumen.blk22, Lumen.inv2,
        Lumen.det2, Lumen.block4, Lumen.cexA, Lumen.cexB, Lumen.cexC,
        Matrix.mul_apply, Fin.sum_univ_two, Matrix.vecHead, Matrix.vecTail]
  have hs12 : !![(0 : ℚ), 0; 0, 0] * !![(1 : ℚ), 0; 0, 1] * !![(0 : ℚ), 0; 0, 1] = !![(0 : ℚ), 0; 0, 0] := by
    ext i j
    fin_cases i <;> fin_cases j <;>
      norm_num [Lumen.blk11, Lumen.blk12, Lumen.blk21, Lumen.blk22, Lumen.inv2,
        Lumen.det2, Lumen.block4, Lumen.cexA, Lumen.cexB, Lumen.cexC,
        Matrix.mul_apply, Fin.sum_univ_two, Matrix.vecHead, Matrix.vecTail]
  have hs21 : !![(0 : ℚ), 1; 0, 0] * !![(0 : ℚ), (-1); 1, 2] * !![(0 : ℚ), 0; 0, 0] = !![(0 : ℚ), 0; 0, 0] := by
    ext i j
    fin_cases i <;> fin_cases j <;>
      norm_num [Lumen.blk11, Lumen.blk12, Lumen.blk21, Lumen.blk22, Lumen.inv2,
        Lumen.det2, Lumen.block4, Lumen.cexA, Lumen.cexB, Lumen.cexC,
        Matrix.mul_apply, Fin.sum_univ_two, Matrix.vecHead, Matrix.vecTail]
  have hs22 : !![(0 : ℚ), 0; 0, 0] + !![(0 : ℚ), 1; 0, 0] * !![(1 : ℚ), 1; 0, 0] * !![(0 : ℚ), (-1); 1, 2] * !![(0 : ℚ), 0; 0, 1] = !![(0 : ℚ), 0; 0, 0] := by
    ext i j
    fin_cases i <;> fin_cases j <;>
      norm_num [Lumen.blk11, Lumen.blk12, Lumen.blk21, Lumen.blk22, Lumen.inv2,
        Lumen.det2, Lumen.block4, Lumen.cexA, Lumen.cexB, Lumen.cexC,
        Matrix.mul_apply, Fin.sum_univ_two, Matrix.vecHead, Matrix.vecTail]
  rw [Lumen.redhefferStar_def, hA11, hA12, hA21, hA22, hB11, hB12, hB21, hB22, hI1, hI2, hD1, hD2, hs11, hs12, hs21, hs22]
  ext i j
  fin_cases i <;> fin_cases j <;>
    norm_num [Lumen.blk11, Lumen.blk12, Lumen.blk21, Lumen.blk22, Lumen.inv2,
        Lumen.det2, Lumen.block4, Lumen.cexA, Lumen.cexB, Lumen.cexC,
        Matrix.mul_apply, Fin.sum_univ_two, Matrix.vecHead, Matrix.vecTail]

theorem cexA_BC_eq : Lumen.redhefferStar Lumen.cexA (!![(0 : ℚ), (1/2), 0, 1;
           0, 0, 0, 0;
           0, (1/2), 0, 0;
           0, 0, 0, 0]) =
    !![(0 : ℚ), 0, 0, 0;
       0, 0, 0, 0;
       0, 0, 0, 1;
       0, 0, 0, 0] := by
  have hA11 : Lumen.blk11 Lumen.cexA = !![(0 : ℚ), 0; 0, 0] := by
    ext i j
    fin_cases i <;> fin_cases j <;>
      norm_num [Lumen.blk11, Lumen.blk12, Lumen.blk21, Lumen.blk22, Lumen.inv2,
        Lumen.det2, Lumen.block4, Lumen.cexA, Lumen.cexB, Lumen.cexC,
        Matrix.mul_apply, Fin.sum_univ_two, Matrix.vecHead, Matrix.vecTail]
  have hA12 : Lumen.blk12 Lumen.cexA = !![(0 : ℚ), 0; 0, 0] := by
    ext i j
    fin_cases i <;> fin_cases j <;>
      norm_num [Lumen.blk11, Lumen.blk12, Lumen.blk21, Lumen.blk22, Lumen.inv2,
        Lumen.det2, Lumen.block4, Lumen.cexA, Lumen.cexB, Lumen.cexC,
        Matrix.mul_apply, Fin.sum_univ_two, Matrix.vecHead, Matrix.vecTail]
  have hA21 : Lumen.blk21 Lumen.cexA = !![(0 : ℚ), 0; 0, 0] := by
    ext i j
    fin_cases i <;> fin_cases j <;>
      norm_num [Lumen.blk11, Lumen.blk12, Lumen.blk21, Lumen.blk22, Lumen.inv2,
        Lumen.det2, Lumen.block4, Lumen.cexA, Lumen.cexB, Lumen.cexC,
        Matrix.mul_apply, Fin.sum_univ_two, Matrix.vecHead, Matrix.vecTail]
  have hA22 : Lumen.blk22 Lumen.cexA = !![(0 : ℚ), 0; 1, 0] := by
    ext i j
    fin_cases i <;> fin_cases j <;>
      norm_num [Lumen.blk11, Lumen.blk12, Lumen.blk21, Lumen.blk22, Lumen.inv2,
        Lumen.det2, Lumen.block4, Lumen.cexA, Lumen.cexB, Lumen.cexC,
        Matrix.mul_apply, Fin.sum_univ_two, Matrix.vecHead, Matrix.vecTail]
  have hB11 : Lumen.blk11 (!![(0 : ℚ), (1/2), 0, 1;
           0, 0, 0, 0;
           0, (1/2), 0, 0;
           0, 0, 0, 0]) = !![(0 : ℚ), (1/2); 0, 0] := by
    ext i j
    fin_cases i <;> fin_cases j <;>
      norm_num [Lumen.blk11, Lumen.blk12, Lumen.blk21, Lumen.blk22, Lumen.inv2,
        Lumen.det2, Lumen.block4, Lumen.cexA, Lumen.cexB, Lumen.cexC,
        Matrix.mul_apply, Fin.sum_univ_two, Matrix.vecHead, Matrix.vecTail]
  have hB12 : Lumen.blk12 (!![(0 : ℚ), (1/2), 0, 1;
           0, 0, 0, 0;
           0, (1/2), 0, 0;
           0, 0, 0, 0]) = !![(0 : ℚ), 1; 0, 0] := by
    ext i j
    fin_cases i <;> fin_cases j <;>
      norm_num [Lumen.blk11, Lumen.blk12, Lumen.blk21, Lumen.blk22, Lumen.inv2,
        Lumen.det2, Lumen.block4, Lumen.cexA, Lumen.cexB, Lumen.cexC,
        Matrix.mul_apply, Fin.sum_univ_two, Matrix.vecHead, Matrix.vecTail]
  have hB21 : Lumen.blk21 (!![(0 : ℚ), (1/2), 0, 1;
           0, 0, 0, 0;
           0, (1/2), 0, 0;
           0, 0, 0, 0]) = !![(0 : ℚ), (1/2); 0, 0] := by
    ext i j
    fin_cases i <;> fin_cases j <;>
      norm_num [Lumen.blk11, Lumen.blk12, Lumen.blk21, Lumen.blk22, Lumen.inv2,
        Lumen.det2, Lumen.block4, Lumen.cexA, Lumen.cexB, Lumen.cexC,
        Matrix.mul_apply, Fin.sum_univ_two, Matrix.vecHead, Matrix.vecTail]
  have hB22 : Lumen.blk22 (!![(0 : ℚ), (1/2), 0, 1;
           0, 0, 0, 0;
           0, (1/2), 0, 0;
           0, 0, 0, 0]) = !![(0 : ℚ), 0; 0, 0] := by
    ext i j
    fin_cases i <;> fin_cases j <;>
      norm_num [Lumen.blk11, Lumen.blk12, Lumen.blk21, Lumen.blk22, Lumen.inv2,
        Lumen.det2, Lumen.block4, Lumen.cexA, Lumen.cexB, Lumen.cexC,
        Matrix.mul_apply, Fin.sum_univ_two, Matrix.vecHead, Matrix.vecTail]
  have hI1 : (1 : Matrix (Fin 2) (Fin 2) ℚ) - !![(0 : ℚ), 0; 1, 0] * !![(0 : ℚ), (1/2); 0, 0] = !![(1 : ℚ), 0; 0, (1/2)] := by
    ext i j
    fin_cases i <;> fin_cases j <;>
      norm_num [Lumen.blk11, Lumen.blk12, Lumen.blk21, Lumen.blk22, Lumen.inv2,
        Lumen.det2, Lumen.block4, Lumen.cexA, Lumen.cexB, Lumen.cexC,
        Matrix.mul_apply, Fin.sum_univ_two, Matrix.vecHead, Matrix.vecTail]
  have hI2 : (1 : Matrix (Fin 2) (Fin 2) ℚ) - !![(0 : ℚ), (1/2); 0, 0] * !![(0 : ℚ), 0; 1, 0] = !![(1/2 : ℚ), 0; 0, 1] := by
    ext i j
    fin_cases i <;> fin_cases j <;>
      norm_num [Lumen.blk11, Lumen.blk12, Lumen.blk21, Lumen.blk22, Lumen.inv2,
        Lumen.det2, Lumen.block4, Lumen.cexA, Lumen.cexB, Lumen.cexC,
        Matrix.mul_apply, Fin.sum_univ_two, Matrix.vecHead, Matrix.vecTail]
  have hD1 : Lumen.inv2 !![(1 : ℚ), 0; 0, (1/2)] = !![(1 : ℚ), 0; 0, 2] := by
    ext i j
    fin_cases i <;> fin_cases j <;>
      norm_num [Lumen.blk11, Lumen.blk12, Lumen.blk21, Lumen.blk22, Lumen.inv2,
        Lumen.det2, Lumen.block4, Lumen.cexA, Lumen.cexB, Lumen.cexC,
        Matrix.mul_apply, Fin.sum_univ_two, Matrix.vecHead, Matrix.vecTail]
  have hD2 : Lumen.inv2 !![(1/2 : ℚ), 0; 0, 1] = !![(2 : ℚ), 0; 0, 1] := by
    ext i j
    fin_cases i <;> fin_cases j <;>
      norm_num [Lumen.blk11, Lumen.blk12, Lumen.blk21, Lumen.blk22, Lumen.inv2,
        Lumen.det2, Lumen.block4, Lumen.cexA, Lumen.cexB, Lumen.cexC,
        Matrix.mul_apply, Fin.sum_univ_two, Matrix.vecHead, Matrix.vecTail]
  have hs11 : !![(0 : ℚ), 0; 0, 0] + !![(0 : ℚ), 0; 0, 0] * !![(0 : ℚ), (1/2); 0, 0] * !![(1 : ℚ), 0; 0, 2] * !![(0 : ℚ), 0; 0, 0] = !![(0 : ℚ), 0; 0, 0] := by
    ext i j
    fin_cases i <;> fin_cases j <;>
      norm_num [Lumen.blk11, Lumen.blk12, Lumen.blk21, Lumen.blk22, Lumen.inv2,
        Lumen.det2, Lumen.block4, Lumen.cexA, Lumen.cexB, Lumen.cexC,
        Matrix.mul_apply, Fin.sum_univ_two, Matrix.vecHead, Matrix.vecTail]
  have hs12 : !![(0 : ℚ), 0; 0, 0] * !![(1 : ℚ), 0; 0, 2] * !![(0 : ℚ), 1; 0, 0] = !![(0 : ℚ), 0; 0, 0] := by
    ext i j
    fin_cases i <;> fin_cases j <;>
      norm_num [Lumen.blk11, Lumen.blk12, Lumen.blk21, Lumen.blk22, Lumen.inv2,
        Lumen.det2, Lumen.block4, Lumen.cexA, Lumen.cexB, Lumen.cexC,
        Matrix.mul_apply, Fin.sum_univ_two, Matrix.vecHead, Matrix.vecTail]
  have hs21 : !![(0 : ℚ), (1/2); 0, 0] * !![(2 : ℚ), 0; 0, 1] * !![(0 : ℚ), 0; 0, 0] = !![(0 : ℚ), 0; 0, 0] := by
    ext i j
    fin_cases i <;> fin_cases j <;>
      norm_num [Lumen.blk11, Lumen.blk12, Lumen.blk21, Lumen.blk22, Lumen.inv2,
        Lumen.det2, Lumen.block4, Lumen.cexA, Lumen.cexB, Lumen.cexC,
        Matrix.mul_apply, Fin.sum_univ_two, Matrix.vecHead, Matrix.vecTail]
  have hs22 : !![(0 : ℚ), 0; 0, 0] + !![(0 : ℚ), (1/2); 0, 0] * !![(0 : ℚ), 0; 1, 0] * !![(2 : ℚ), 0; 0, 1] * !![(0 : ℚ), 1; 0, 0] = !![(0 : ℚ), 1; 0, 0] := by
    ext i j
    fin_cases i <;> fin_cases j <;>
      norm_num [Lumen.blk11, Lumen.blk12, Lumen.blk21, Lumen.blk22, Lumen.inv2,
        Lumen.det2, Lumen.block4, Lumen.cexA, Lumen.cexB, Lumen.cexC,
        Matrix.mul_apply, Fin.sum_univ_two, Matrix.vecHead, Matrix.vecTail]
  rw [Lumen.redhefferStar_def, hA11, hA12, hA21, hA22, hB11, hB12, hB21, hB22, hI1, hI2, hD1, hD2, hs11, hs12, hs21, hs22]
  ext i j
  fin_cases i <;> fin_cases j <;>
    norm_num [Lumen.blk11, Lumen.blk12, Lumen.blk21, Lumen.blk22, Lumen.inv2,
        Lumen.det2, Lumen.block4, Lumen.cexA, Lumen.cexB, Lumen.cexC,
        Matrix.mul_apply, Fin.sum_univ_two, Matrix.vecHead, Matrix.vecTail]

/-- **C8.** Evaluation of `_redheffer_star` at the concrete triple
`cexA, cexB, cexC`: every interior matrix inverted during the four star
computations — both interiors of `A ⋆ B`, of `(A ⋆ B) ⋆ C`, of `B ⋆ C` and
of `A ⋆ (B ⋆ C)` — has nonzero determinant (so the claim's hypotheses hold),
yet `(A ⋆ B) ⋆ C ≠ A ⋆ (B ⋆ C)`: the two sides differ at entry `(2, 3)`
(`0` versus `1`).  These rational matrices are in particular complex
matrices, so the implemented operation is not associative. -/
theorem C8_redheffer_star_not_associative :
    Lumen.det2 ((1 : Matrix (Fin 2) (Fin 2) ℚ)
        - Lumen.blk22 Lumen.cexA * Lumen.blk11 Lumen.cexB) ≠ 0 ∧
    Lumen.det2 ((1 : Matrix (Fin 2) (Fin 2) ℚ)
        - Lumen.blk11 Lumen.cexB * Lumen.blk22 Lumen.cexA) ≠ 0 ∧
    Lumen.det2 ((1 : Matrix (Fin 2) (Fin 2) ℚ)
        - Lumen.blk22 (Lumen.redhefferStar Lumen.cexA Lumen.cexB) * Lumen.blk11 Lumen.cexC) ≠ 0 ∧
    Lumen.det2 ((1 : Matrix (Fin 2) (Fin 2) ℚ)
        - Lumen.blk11 Lumen.cexC * Lumen.blk22 (Lumen.redhefferStar Lumen.cexA Lumen.cexB)) ≠ 0 ∧
    Lumen.det2 ((1 : Matrix (Fin 2) (Fin 2) ℚ)
        - Lumen.blk22 Lumen.cexB * Lumen.blk11 Lumen.cexC) ≠ 0 ∧
    Lumen.det2 ((1 : Matrix (Fin 2) (Fin 2) ℚ)
        - Lumen.blk11 Lumen.cexC * Lumen.blk22 Lumen.cexB) ≠ 0 ∧
    Lumen.det2 ((1 : Matrix (Fin 2) (Fin 2) ℚ)
        - Lumen.blk22 Lumen.cexA * Lumen.blk11 (Lumen.redhefferStar Lumen.cexB Lumen.cexC)) ≠ 0 ∧
    Lumen.det2 ((1 : Matrix (Fin 2) (Fin 2) ℚ)
        - Lumen.blk11 (Lumen.redhefferStar Lumen.cexB Lumen.cexC) * Lumen.blk22 Lumen.cexA) ≠ 0 ∧
    Lumen.redhefferStar (Lumen.redhefferStar Lumen.cexA Lumen.cexB) Lumen.cexC ≠
      Lumen.redhefferStar Lumen.cexA (Lumen.redhefferStar Lumen.cexB Lumen.cexC) := by
  refine ⟨?_, ?_, ?_, ?_, ?_, ?_, ?_, ?_, ?_⟩
  · norm_num [Lumen.det2, Lumen.blk11, Lumen.blk22, Lumen.cexA, Lumen.cexB,
      Matrix.mul_apply, Fin.sum_univ_two, Matrix.vecHead, Matrix.vecTail]
  · norm_num [Lumen.det2, Lumen.blk11, Lumen.blk22, Lumen.cexA, Lumen.cexB,
      Matrix.mul_apply, Fin.sum_univ_two, Matrix.vecHead, Matrix.vecTail]
  · rw [cexAB_eq]
    norm_num [Lumen.det2, Lumen.blk11, Lumen.blk22, Lumen.cexC,
      Matrix.mul_apply, Fin.sum_univ_two, Matrix.vecHead, Matrix.vecTail]
  · rw [cexAB_eq]
    norm_num [Lumen.det2, Lumen.blk11, Lumen.blk22, Lumen.cexC,
      Matrix.mul_apply, Fin.sum_univ_two, Matrix.vecHead, Matrix.vecTail]
  · norm_num [Lumen.det2, Lumen.blk11, Lumen.blk22, Lumen.cexB, Lumen.cexC,
      Matrix.mul_apply, Fin.sum_univ_two, Matrix.vecHead, Matrix.vecTail]
  · norm_num [Lumen.det2, Lumen.blk11, Lumen.blk22, Lumen.cexB, Lumen.cexC,
      Matrix.mul_apply, Fin.sum_univ_two, Matrix.vecHead, Matrix.vecTail]
  · rw [cexBC_eq]
    norm_num [Lumen.det2, Lumen.blk11, Lumen.blk22, Lumen.cexA,
      Matrix.mul_apply, Fin.sum_univ_two, Matrix.vecHead, Matrix.vecTail]
  · rw [cexBC_eq]
    norm_num [Lumen.det2, Lumen.blk11, Lumen.blk22, Lumen.cexA,
      Matrix.mul_apply, Fin.sum_univ_two, Matrix.vecHead, Matrix.vecTail]
  · rw [cexAB_eq, cexBC_eq, cexAB_C_eq, cexA_BC_eq]
    intro h
    have h23 := congrFun (congrFun h 2) 3
    norm_num [Matrix.vecHead, Matrix.vecTail] at h23

namespace Lumen

/-- Both orders of multiplying by `I` in the exponent agree. -/
theorem exp_I_comm (x : ℂ) :
    Complex.exp (-(Complex.I * x)) = Complex.exp (-(x * Complex.I)) := by
  congr 1
  ring

end Lumen

/-- **C10.** For every wavelength `wl > 0` and every phase shifter, the 4×4
matrix of `get_s_matrix` has its four transmission entries
`(0,2), (1,3), (2,0), (3,1)` equal to
`a_P · exp(−i · 2π n_P(wl) L / wl)` with field amplitude
`a_P = 10^(−dB_P · L / 20)` and `n_P(wl)` the linearly dispersed effective
index, and every remaining entry zero (engineering sign convention: the
exponent carries the negative sign). -/
theorem C10_phase_shifter_s_matrix (p : Lumen.PhaseShifterParams) (wl : ℝ)
    (hwl : 0 < wl) :
    Lumen.phaseShifterSMatrix p wl =
      !![0, 0, (((10 : ℝ) ^ (-(p.powerRatioH * p.length) / 20) : ℝ) : ℂ) *
            Complex.exp (-(((2 * Real.pi * Lumen.dispersedIndexH p wl * p.length) / wl
              : ℝ) : ℂ) * Complex.I), 0;
         0, 0, 0, (((10 : ℝ) ^ (-(p.powerRatioV * p.length) / 20) : ℝ) : ℂ) *
            Complex.exp (-(((2 * Real.pi * Lumen.dispersedIndexV p wl * p.length) / wl
              : ℝ) : ℂ) * Complex.I);
         (((10 : ℝ) ^ (-(p.powerRatioH * p.length) / 20) : ℝ) : ℂ) *
            Complex.exp (-(((2 * Real.pi * Lumen.dispersedIndexH p wl * p.length) / wl
              : ℝ) : ℂ) * Complex.I), 0, 0, 0;
         0, (((10 : ℝ) ^ (-(p.powerRatioV * p.length) / 20) : ℝ) : ℂ) *
            Complex.exp (-(((2 * Real.pi * Lumen.dispersedIndexV p wl * p.length) / wl
              : ℝ) : ℂ) * Complex.I), 0, 0] := by
  ext i j
  fin_cases i <;> fin_cases j <;>
    simp [Lumen.phaseShifterSMatrix, Lumen.exp_I_comm, neg_mul]

/-- Witness for C10 at the concrete parameters `psWitnessParams`, `wl = 29`. -/
theorem C10_phase_shifter_s_matrix_witness :
    (0 : ℝ) < 29 ∧
    Lumen.phaseShifterSMatrix Lumen.psWitnessParams 29 =
      !![0, 0, (((10 : ℝ) ^ (-(Lumen.psWitnessParams.powerRatioH *
              Lumen.psWitnessParams.length) / 20) : ℝ) : ℂ) *
            Complex.exp (-(((2 * Real.pi *
              Lumen.dispersedIndexH Lumen.psWitnessParams 29 *
              Lumen.psWitnessParams.length) / 29 : ℝ) : ℂ) * Complex.I), 0;
         0, 0, 0, (((10 : ℝ) ^ (-(Lumen.psWitnessParams.powerRatioV *
              Lumen.psWitnessParams.length) / 20) : ℝ) : ℂ) *
            Complex.exp (-(((2 * Real.pi *
              Lumen.dispersedIndexV Lumen.psWitnessParams 29 *
              Lumen.psWitnessParams.length) / 29 : ℝ) : ℂ) * Complex.I);
         (((10 : ℝ) ^ (-(Lumen.psWitnessParams.powerRatioH *
              Lumen.psWitnessParams.length) / 20) : ℝ) : ℂ) *
            Complex.exp (-(((2 * Real.pi *
              Lumen.dispersedIndexH Lumen.psWitnessParams 29 *
              Lumen.psWitnessParams.length) / 29 : ℝ) : ℂ) * Complex.I), 0, 0, 0;
         0, (((10 : ℝ) ^ (-(Lumen.psWitnessParams.powerRatioV *
              Lumen.psWitnessParams.length) / 20) : ℝ) : ℂ) *
            Complex.exp (-(((2 * Real.pi *
              Lumen.dispersedIndexV Lumen.psWitnessParams 29 *
              Lumen.psWitnessParams.length) / 29 : ℝ) : ℂ) * Complex.I), 0, 0] :=
  ⟨by norm_num, C10_phase_shifter_s_matrix Lumen.psWitnessParams 29 (by norm_num)⟩


namespace Lumen

/-- Multiplying inside the exponent by `I` on either side agrees. -/
theorem exp_I_mul_eq (x : ℂ) :
    Complex.exp (Complex.I * x) = Complex.exp (x * Complex.I) := by
  congr 1
  ring

/-- `z · conj z` for a phasor `A e^{iφ}` with real amplitude `A`. -/
theorem phasor_mul_conj (A φ : ℝ) :
    ((A : ℂ) * Complex.exp (Complex.I * (φ : ℂ))) *
      (starRingEnd ℂ) ((A : ℂ) * Complex.exp (Complex.I * (φ : ℂ))) =
    ((A ^ 2 : ℝ) : ℂ) := by
  rw [Complex.mul_conj, exp_I_mul_eq, Complex.normSq_mul, Complex.normSq_ofReal]
  have h1 : Complex.normSq (Complex.exp ((φ : ℂ) * Complex.I)) = 1 := by
    rw [← Complex.sq_abs, Complex.abs_exp_ofReal_mul_I]
    norm_num
  rw [h1]
  push_cast
  ring

/-- `conj E_H · E_V` for two phasors sharing the global phase. -/
theorem conj_phasor_mul (Ax Ay φ0 θ : ℝ) :
    (starRingEnd ℂ) ((Ax : ℂ) * Complex.exp (Complex.I * (φ0 : ℂ))) *
      ((Ay : ℂ) * Complex.exp (Complex.I * ((φ0 + θ : ℝ) : ℂ))) =
    ((Ax * Ay : ℝ) : ℂ) * Complex.exp (Complex.I * (θ : ℂ)) := by
  rw [map_mul, Complex.conj_ofReal, ← Complex.exp_conj]
  have hconj : (starRingEnd ℂ) (Complex.I * (φ0 : ℂ)) = -(Complex.I * (φ0 : ℂ)) := by
    simp [Complex.conj_I, Complex.conj_ofReal]
  rw [hconj, mul_mul_mul_comm, ← Complex.exp_add]
  have harg : -(Complex.I * (φ0 : ℂ)) + Complex.I * ((φ0 + θ : ℝ) : ℂ) =
      Complex.I * (θ : ℂ) := by
    push_cast
    ring
  rw [harg]
  push_cast
  ring

end Lumen

/-- **C9.** For every Stokes vector with `S0 ≥ 0` and
`S0² = S1² + S2² + S3²` (a pure state), and every wavelength and global
phase, `CoherentLight.from_stokes` followed by `stokes_vector` returns the
original four Stokes parameters exactly (in real arithmetic). -/
theorem C9_stokes_jones_roundtrip (s : Lumen.Stokes) (wl globalPhase : ℝ)
    (hS0 : 0 ≤ s.S0) (hpure : s.S0 ^ 2 = s.S1 ^ 2 + s.S2 ^ 2 + s.S3 ^ 2) :
    (Lumen.CoherentLight.fromStokes s wl globalPhase).stokesVector = s := by
  obtain ⟨S0, S1, S2, S3⟩ := s
  simp only at hS0 hpure
  have hplus : (0 : ℝ) ≤ 0.5 * (S0 + S1) := by
    nlinarith [sq_nonneg S2, sq_nonneg S3, sq_nonneg (S0 + S1)]
  have hminus : (0 : ℝ) ≤ 0.5 * (S0 - S1) := by
    nlinarith [sq_nonneg S2, sq_nonneg S3, sq_nonneg (S0 - S1)]
  have hAx : Real.sqrt (0.5 * (S0 + S1)) ^ 2 = 0.5 * (S0 + S1) := Real.sq_sqrt hplus
  have hAy : Real.sqrt (0.5 * (S0 - S1)) ^ 2 = 0.5 * (S0 - S1) := Real.sq_sqrt hminus
  have hprod : (0.5 * (S0 + S1)) * (0.5 * (S0 - S1)) = (S2 ^ 2 + S3 ^ 2) / 4 := by
    linear_combination 0.25 * hpure
  have hAxAy : Real.sqrt (0.5 * (S0 + S1)) * Real.sqrt (0.5 * (S0 - S1)) =
      Real.sqrt (S2 ^ 2 + S3 ^ 2) / 2 := by
    rw [← Real.sqrt_mul hplus, hprod,
      Real.sqrt_div (by positivity : (0 : ℝ) ≤ S2 ^ 2 + S3 ^ 2) 4,
      show Real.sqrt 4 = 2 by
        rw [show (4 : ℝ) = 2 ^ 2 by norm_num, Real.sqrt_sq (by norm_num : (0 : ℝ) ≤ 2)]]
  have habs : Complex.abs ((S2 : ℂ) + (S3 : ℂ) * Complex.I) =
      Real.sqrt (S2 ^ 2 + S3 ^ 2) := by
    rw [Complex.abs_apply, Complex.normSq_add_mul_I]
  unfold Lumen.CoherentLight.fromStokes Lumen.CoherentLight.stokesVector
  simp only [Lumen.CoherentLight.stokesParameter,
    Lumen.phasor_mul_conj, Lumen.conj_phasor_mul]
  rw [Lumen.Stokes.mk.injEq]
  refine ⟨?_, ?_, ?_, ?_⟩
  · rw [← Complex.ofReal_add]
    rw [Complex.ofReal_re, hAx, hAy]
    ring
  · rw [← Complex.ofReal_sub]
    rw [Complex.ofReal_re, hAx, hAy]
    ring
  · rw [Lumen.exp_I_mul_eq]
    simp only [Complex.mul_re, Complex.ofReal_re, Complex.ofReal_im,
      Complex.exp_ofReal_mul_I_re, Complex.exp_ofReal_mul_I_im]
    rw [hAxAy]
    by_cases hz : ((S2 : ℂ) + (S3 : ℂ) * Complex.I) = 0
    · have h2 : S2 = 0 := by
        have := congrArg Complex.re hz
        simpa using this
      have h3 : S3 = 0 := by
        have := congrArg Complex.im hz
        simpa using this
      subst h2 h3
      norm_num
    · rw [Complex.cos_arg hz, habs]
      have hρ : (0 : ℝ) < Real.sqrt (S2 ^ 2 + S3 ^ 2) := by
        rw [← habs]
        exact Complex.abs.pos hz
      have hre : ((S2 : ℂ) + (S3 : ℂ) * Complex.I).re = S2 := by simp
      rw [hre]
      field_simp
      ring
  · rw [Lumen.exp_I_mul_eq]
    simp only [Complex.mul_im, Complex.ofReal_re, Complex.ofReal_im,
      Complex.exp_ofReal_mul_I_re, Complex.exp_ofReal_mul_I_im]
    rw [hAxAy]
    by_cases hz : ((S2 : ℂ) + (S3 : ℂ) * Complex.I) = 0
    · have h2 : S2 = 0 := by
        have := congrArg Complex.re hz
        simpa using this
      have h3 : S3 = 0 := by
        have := congrArg Complex.im hz
        simpa using this
      subst h2 h3
      norm_num
    · rw [Complex.sin_arg, habs]
      have hρ : (0 : ℝ) < Real.sqrt (S2 ^ 2 + S3 ^ 2) := by
        rw [← habs]
        exact Complex.abs.pos hz
      have him : ((S2 : ℂ) + (S3 : ℂ) * Complex.I).im = S3 := by simp
      rw [him]
      field_simp
      ring

/-- Witness for C9 at the pure diagonal state `(1, 0, 1, 0)`,
`wl = 1550e-9`, zero global phase. -/
theorem C9_stokes_jones_roundtrip_witness :
    (0 : ℝ) ≤ (1 : ℝ) ∧
    (Lumen.CoherentLight.fromStokes ⟨1, 0, 1, 0⟩ (1550 / 10 ^ 9) 0).stokesVector
      = ⟨1, 0, 1, 0⟩ :=
  ⟨by norm_num,
    C9_stokes_jones_roundtrip ⟨1, 0, 1, 0⟩ (1550 / 10 ^ 9) 0 (by norm_num) (by norm_num)⟩

/-- **C3.** Evaluation of `set_circuit_output` at a circuit whose resolved
port is already a circuit input: the call does fail with
`ConflictingConnection`, but the circuit state is *not* left unchanged —
the port has already been appended to the ordered output list when the
exception is raised (`self._circuit_outputs.append(port)` precedes the
membership check in photonic_circuit.py lines 99-104). -/
theorem C3_set_circuit_output_mutates_on_conflict :
    (Lumen.setCircuitOutput Lumen.outputConflictExample
      ⟨"c", .idx 1⟩).1 = .error .conflictingConnection ∧
    Lumen.outputConflictExample.circuitOutputs = [] ∧
    (Lumen.setCircuitOutput Lumen.outputConflictExample
      ⟨"c", .idx 1⟩).2.circuitOutputs = [0] := by
  decide

/-- **C4.** Evaluation of `connect` at two references that resolve to the
*same* port — index `1` and alias `"a"` of component `"c"` both name port
`0` — showing the claim false: the self-connection guard compares the
textual pair `(component_name, port_name)` (photonic_circuit.py line 155),
so the call does not raise `SelfConnection`; it returns normally and
installs `PortConnection` from port 0 to port 0 itself. -/
theorem C4_connect_self_loop_not_rejected :
    Lumen.getPortFromRef Lumen.selfConnectExample ⟨"c", .idx 1⟩ = .ok 0 ∧
    Lumen.getPortFromRef Lumen.selfConnectExample ⟨"c", .byAlias "a"⟩ = .ok 0 ∧
    (Lumen.connect Lumen.selfConnectExample
      ⟨"c", .idx 1⟩ ⟨"c", .byAlias "a"⟩).1 = .ok () ∧
    ((Lumen.connect Lumen.selfConnectExample
      ⟨"c", .idx 1⟩ ⟨"c", .byAlias "a"⟩).2.portHeap.lookup 0).map
        (fun p => p.conn) = some (some (.toPort 0)) := by
  decide

/-- **C6.** Evaluation of `_condense_circuit` at a circuit holding two
fully disconnected components in adjacent insertion-order positions: the
prune loop removes components from the list it is iterating over, so after
removing the first one Python's list iterator skips the second — the
returned circuit still contains component 1, all of whose ports have
connection `None`.  The claim ("every fully disconnected component is
pruned, regardless of positions") fails on exactly this input. -/
theorem C6_disconnected_component_survives_pruning :
    Lumen.isDisconnected Lumen.twoDisconnectedExample 0 = true ∧
    Lumen.isDisconnected Lumen.twoDisconnectedExample 1 = true ∧
    (Lumen.condenseCircuit Lumen.twoDisconnectedExample 10).toOption.map
      (fun r => r.1.components) = some [1] ∧
    (Lumen.condenseCircuit Lumen.twoDisconnectedExample 10).toOption.map
      (fun r => r.1.components.any (fun cid => Lumen.isDisconnected r.1 cid))
      = some true := by
  decide

namespace Lumen

/-- With at least one sample time, at least one laser and at least one
chain, the incoherent per-source loop raises on its first iteration. -/
theorem incoherentPerSourceLoop_raises (inputs : List ℕ) (t0 : ℚ) (ts : List ℚ)
    (paths : List (List ℕ)) (hin : inputs ≠ []) (hp : paths ≠ []) :
    incoherentPerSourceLoop inputs (t0 :: ts) paths
      = .error .typeErrorUnhashable := by
  obtain ⟨i, is, rfl⟩ := List.exists_cons_of_ne_nil hin
  obtain ⟨p, ps, rfl⟩ := List.exists_cons_of_ne_nil hp
  simp [incoherentPerSourceLoop, rebuildCondensedChains, Bind.bind, Except.bind]

end Lumen

/-- **C7.** When `simulate` runs on a circuit with more than one circuit
input (incoherent regime), a nonempty `times` array, and a condensed
working copy containing at least one sequential chain (chains collected by
`_condense_circuit` always have length ≥ 2), the call raises an unhandled
exception instead of producing a result: the first loop iteration
subscripts the empty, never-populated dict `chain_to_condensed_component`
with a Python list, which is unhashable. -/
theorem C7_incoherent_simulate_raises (c : Lumen.CircuitState)
    (lasers : ℕ → ℚ → ℚ) (times : List ℚ) (fuel : ℕ)
    (hpaths : (Lumen.condenseCircuit c fuel).toOption.map
      (fun r => r.2.isEmpty) = some false)
    (hinp : (Lumen.condenseCircuit c fuel).toOption.map
      (fun r => r.1.circuitInputs.isEmpty) = some false)
    (hinc : 2 ≤ c.circuitInputs.length)
    (hout : c.circuitOutputs ≠ [])
    (htimes : times ≠ []) :
    Lumen.simulateModel c lasers times fuel
      = .error .typeErrorUnhashable := by
  obtain ⟨t0, ts, rfl⟩ := List.exists_cons_of_ne_nil htimes
  cases hres : Lumen.condenseCircuit c fuel with
  | error e =>
    rw [hres] at hpaths
    simp [Except.toOption] at hpaths
  | ok r =>
    obtain ⟨c', paths⟩ := r
    have hp : paths ≠ [] := by
      intro hnil
      rw [hres, hnil] at hpaths
      simp [Except.toOption] at hpaths
    have hi : c'.circuitInputs ≠ [] := by
      intro hnil
      rw [hres] at hinp
      simp [Except.toOption, hnil] at hinp
    have h0 : ¬(c.circuitInputs.length = 0 ∨ c.circuitOutputs.length = 0) := by
      push_neg
      refine ⟨by omega, ?_⟩
      simpa [List.length_eq_zero] using hout
    have hcoh : Lumen.checkCoherence c = .incoherent := by
      unfold Lumen.checkCoherence
      rw [if_neg (by omega)]
    unfold Lumen.simulateModel
    rw [if_neg h0]
    simp only [hres, hcoh, ite_self]
    exact Lumen.incoherentPerSourceLoop_raises c'.circuitInputs t0 ts paths hi hp

/-- Witness for C7: the concrete two-laser circuit
`incoherentChainExample` with its length-two chain, one sample time and
constant unit-wavelength lasers. -/
theorem C7_incoherent_simulate_raises_witness :
    Lumen.simulateModel Lumen.incoherentChainExample (fun _ _ => 1) [0] 20
      = .error .typeErrorUnhashable :=
  C7_incoherent_simulate_raises Lumen.incoherentChainExample (fun _ _ => 1) [0] 20
    (by decide) (by decide) (by decide) (by decide) (by decide)
